import Mathlib

/-!
Verification development for the passport/ID verification pipeline
(`src/extractor.py`, `src/patterns.py`, `src/face_processor.py`, `src/app.py`).

The Python code is shallowly embedded:
* regular-expression scanning (`re.search` / `re.findall` / `re.finditer`
  over the fixed pattern lists of `patterns.py`) is modelled by a small
  backtracking matcher over an explicit pattern AST, with Python's
  leftmost / greedy / alternation-priority semantics;
* the field extractors of `extractor.py` are translated function by
  function, with dictionaries modelled as first-match association lists;
* `face_processor.py` and the `/verify-passport` orchestration of `app.py`
  are parameterized by an environment supplying the external engines
  (InsightFace, the cascade detector, the `face_recognition` library,
  image statistics); Python exceptions of those engines are modelled with
  `Except`, and `try/except` blocks by matching on the `Except` value.

Numbers are modelled with `ℚ` (the float values appearing in the code -
0.95, 0.25, thresholds, score arithmetic with denominators 8, 1000, 5000 -
are all exactly representable, so no rounding behaviour is lost on the
inputs exercised here).
-/

namespace IDV

/-- Character strings, processed as explicit character lists. -/
abbrev Str := List Char

/-! ## A small regex engine

Models the subset of Python `re` used by `patterns.py`: literals,
character classes, `(?:...)` grouping, one capturing group, `|`
alternation, greedy `*` `+` `?` `{m,n}` quantifiers and `\b`.
Matching follows Python's backtracking priority: leftmost start
position, alternatives in written order, greedy quantifiers try the
longest repetition first.  `\w` (for `\b`) is approximated by ASCII
alphanumerics plus underscore; all concrete inputs evaluated below are
ASCII, where the two notions agree. -/

inductive RE where
  | eps : RE
  | cls (p : Char → Bool) : RE
  | seq (a b : RE) : RE
  | alt (a b : RE) : RE
  | opt (a : RE) : RE
  | star (a : RE) : RE
  | wordB : RE
  | grp (a : RE) : RE

/-- Does the pattern contain a capturing group (`match.groups()` nonempty)? -/
def hasGrp : RE → Bool
  | .eps => false
  | .cls _ => false
  | .seq a b => hasGrp a || hasGrp b
  | .alt a b => hasGrp a || hasGrp b
  | .opt a => hasGrp a
  | .star a => hasGrp a
  | .wordB => false
  | .grp _ => true

/-- Size of a pattern, used to allot matching fuel. -/
def reSize : RE → Nat
  | .eps => 1
  | .cls _ => 1
  | .seq a b => reSize a + reSize b + 1
  | .alt a b => reSize a + reSize b + 1
  | .opt a => reSize a + 1
  | .star a => reSize a + 1
  | .wordB => 1
  | .grp a => reSize a + 1

/-- One way a pattern can match a prefix of the input: the remaining
input, the last consumed character (context for `\b`), and the content
of the capturing group if one participated. -/
structure MRes where
  rest : Str
  prev : Option Char
  cap : Option Str

/-- Python `\w` (ASCII approximation): letters, digits, underscore. -/
def isWordChar (c : Char) : Bool := c.isAlphanum || c = '_'

/-- Whether the character (none = string edge) counts as a word character. -/
def wordAt : Option Char → Bool
  | none => false
  | some c => isWordChar c

/-- All ways `re` can match a prefix of `s` (with `p` the character just
before `s`), in Python's backtracking priority order.  `fuel` bounds the
recursion depth; every concrete use below supplies ample fuel, and the
universally-quantified theorems in this file do not depend on the
matcher's output. -/
def mtch : Nat → RE → Option Char → Str → List MRes
  | 0, _, _, _ => []
  | _ + 1, .eps, p, s => [⟨s, p, none⟩]
  | _ + 1, .cls _, _, [] => []
  | _ + 1, .cls f, _, c :: t => if f c then [⟨t, some c, none⟩] else []
  | fuel + 1, .seq a b, p, s =>
    (mtch fuel a p s).flatMap fun r =>
      (mtch fuel b r.prev r.rest).map fun r2 =>
        ⟨r2.rest, r2.prev, r2.cap.orElse fun _ => r.cap⟩
  | fuel + 1, .alt a b, p, s => mtch fuel a p s ++ mtch fuel b p s
  | fuel + 1, .opt a, p, s => mtch fuel a p s ++ [⟨s, p, none⟩]
  | fuel + 1, .star a, p, s =>
    ((mtch fuel a p s).flatMap fun r =>
      if r.rest.length < s.length then
        (mtch fuel (.star a) r.prev r.rest).map fun r2 =>
          ⟨r2.rest, r2.prev, r2.cap.orElse fun _ => r.cap⟩
      else []) ++ [⟨s, p, none⟩]
  | _ + 1, .wordB, p, s =>
    if wordAt p != wordAt s.head? then [⟨s, p, none⟩] else []
  | fuel + 1, .grp a, p, s =>
    (mtch fuel a p s).map fun r =>
      ⟨r.rest, r.prev, some (s.take (s.length - r.rest.length))⟩

/-- Fuel sufficient for matching `re` against a suffix of a string of
length `n`. -/
def fuelFor (re : RE) (n : Nat) : Nat := (reSize re + 1) * (n + 2)

/-- A reported match: the matched text and the capture (if any). -/
structure Hit where
  text : Str
  cap : Option Str

/-- First match of `re` in `s` scanning left to right (Python
`re.search`), with `p` the character before `s`. -/
def searchAux (re : RE) (p : Option Char) (s : Str) (fuel : Nat) : Option Hit :=
  match (mtch fuel re p s).head? with
  | some r => some ⟨s.take (s.length - r.rest.length), r.cap⟩
  | none =>
    match s with
    | [] => none
    | c :: t => searchAux re (some c) t fuel

/-- Python `re.search`: first match in the string. -/
def reSearch (re : RE) (s : Str) : Option Hit :=
  searchAux re none s (fuelFor re s.length)

/-- All non-overlapping matches left to right (Python `re.findall` /
`re.finditer`); an empty match advances the scan by one character. -/
def allMatchesAux (re : RE) (mfuel : Nat) :
    Option Char → Str → Nat → List Hit
  | _, _, 0 => []
  | p, s, fuel + 1 =>
    match (mtch mfuel re p s).head? with
    | some r =>
      let len := s.length - r.rest.length
      let hit : Hit := ⟨s.take len, r.cap⟩
      if len = 0 then
        match s with
        | [] => [hit]
        | c :: t => hit :: allMatchesAux re mfuel (some c) t fuel
      else hit :: allMatchesAux re mfuel r.prev r.rest fuel
    | none =>
      match s with
      | [] => []
      | c :: t => allMatchesAux re mfuel (some c) t fuel

/-- Python `re.findall` / `re.finditer` match list. -/
def allMatches (re : RE) (s : Str) : List Hit :=
  allMatchesAux re (fuelFor re s.length) none s (s.length + 1)

/-- The value the extractor reads off a match:
`match.group(1) if match.groups() else match.group(0)`; a
non-participating group yields the empty string (the `re.findall`
convention; every group in the patterns below participates whenever the
pattern matches). -/
def hitValue (re : RE) (h : Hit) : Str :=
  if hasGrp re then h.cap.getD [] else h.text

/-- All values produced by matching every pattern of `pats` against `t`,
patterns in order, matches left to right (the candidate scan order of
the extractor's nested loops). -/
def candidatesOfText (pats : List RE) (t : Str) : List Str :=
  pats.flatMap fun p => (allMatches p t).map (hitValue p)

/-! ### Pattern construction helpers -/

/-- Sequence of a pattern list. -/
def reSeqL (l : List RE) : RE := l.foldr .seq .eps

/-- Alternation of a pattern list (first alternative preferred). -/
def altL : List RE → RE
  | [] => .cls fun _ => false
  | [a] => a
  | a :: rest => .alt a (altL rest)

/-- Case-sensitive literal character. -/
def chC (c : Char) : RE := .cls fun x => x = c

/-- Case-insensitive literal character (`re.IGNORECASE`). -/
def chI (c : Char) : RE := .cls fun x => x.toLower = c.toLower

/-- Case-sensitive literal string. -/
def strC (s : String) : RE := reSeqL (s.data.map chC)

/-- Case-insensitive literal string. -/
def strI (s : String) : RE := reSeqL (s.data.map chI)

/-- Class `\d` (ASCII digits; the scanned candidates are re-validated
downstream, so the theorems below do not depend on the non-ASCII digit
corner of Python's `\d`). -/
def digC : RE := .cls Char.isDigit

/-- Class `\s`. -/
def wsC : RE := .cls Char.isWhitespace

/-- Class `[A-Z]`, case-sensitive. -/
def upC : RE := .cls fun c => 'A' ≤ c && c ≤ 'Z'

/-- Class `[A-Z]` under `re.IGNORECASE`. -/
def upI : RE := .cls fun c => ('A' ≤ c && c ≤ 'Z') || ('a' ≤ c && c ≤ 'z')

/-- Class `[A-Z0-9]` under `re.IGNORECASE`. -/
def alnumI : RE :=
  .cls fun c => ('A' ≤ c && c ≤ 'Z') || ('a' ≤ c && c ≤ 'z') || c.isDigit

/-- Class from an explicit character list, case-sensitive. -/
def clsOf (s : String) : RE := .cls fun c => s.data.contains c

/-- Class from an explicit character list, case-insensitive. -/
def clsOfI (s : String) : RE :=
  .cls fun c => s.data.contains c.toLower || s.data.contains c.toUpper

/-- Exactly `n` repetitions. -/
def repN (a : RE) (n : Nat) : RE := reSeqL (List.replicate n a)

/-- Up to `n` further repetitions, greedy. -/
def upTo (a : RE) : Nat → RE
  | 0 => .eps
  | n + 1 => .opt (.seq a (upTo a n))

/-- Quantifier `{lo,hi}`, greedy. -/
def between (a : RE) (lo hi : Nat) : RE := .seq (repN a lo) (upTo a (hi - lo))

/-- Quantifier `{lo,}`, greedy. -/
def atLeast (a : RE) (lo : Nat) : RE := .seq (repN a lo) (.star a)

/-- Quantifier `+`, greedy. -/
def plus1 (a : RE) : RE := atLeast a 1

end IDV

namespace IDV

/-! ## The pattern lists of `patterns.py`

Each Python regex is transcribed to the AST above.  The passport-number
and sex scans use `re.IGNORECASE` (case-insensitive constructors); the
national-id, date and name scans pass no flag (case-sensitive
constructors). -/

/-- Class `[-\s]`. -/
def hsepC : RE := .cls fun c => c = '-' || c.isWhitespace

/-- Class `[\s\-\.]`. -/
def dsepC : RE := .cls fun c => c.isWhitespace || c = '-' || c = '.'

/-- Class of hyphen and slash. -/
def slashDashC : RE := clsOf "-/"

/-- Class of whitespace, hyphen, slash and dot. -/
def anySepC : RE := .cls fun c => c.isWhitespace || c = '-' || c = '/' || c = '.'

/-- Class `[0-9O]` under `re.IGNORECASE`. -/
def digOC : RE := .cls fun c => c.isDigit || c = 'O' || c = 'o'

/-- Class `[MF]` under `re.IGNORECASE`. -/
def mfI : RE := clsOfI "mf"

/-- Class `[A-Z\s]`. -/
def upWsC : RE := .cls fun c => ('A' ≤ c && c ≤ 'Z') || c.isWhitespace

/-- Class `[A-Z\s\-\']` (the apostrophe written by code point). -/
def nameClsC : RE :=
  .cls fun c => ('A' ≤ c && c ≤ 'Z') || c.isWhitespace || c = '-' || c = Char.ofNat 39

/-- `PassportPatterns.passport_number` (scanned with `re.IGNORECASE`). -/
def passportPats : List RE :=
  [ reSeqL [chI 'P', .star wsC, between digC 8 9],
    reSeqL [chI 'P', between digC 8 9],
    reSeqL [strI "Passport", .star wsC, strI "No", .opt (chC '.'), .star wsC,
            .opt (chC ':'), .star wsC, .grp (between alnumI 8 10)],
    reSeqL [strI "No", .opt (chC '.'), .star wsC, .opt (chC ':'), .star wsC,
            .grp (between alnumI 8 10)],
    .grp (reSeqL [between upI 1 2, .star wsC, between digC 6 9]),
    reSeqL [chI 'P', .star wsC, chI 'O', .star wsC, between digC 7 9],
    reSeqL [clsOfI "pd", between digOC 8 9],
    reSeqL [strC "جواز", .star wsC, strC "رقم", .star wsC, .opt (chC ':'),
            .star wsC, .grp (between alnumI 8 10)] ]

/-- `PassportPatterns.national_id` (scanned with no flag). -/
def natIdPats : List RE :=
  [ reSeqL [repN digC 3, .opt hsepC, repN digC 4, .opt hsepC, between digC 4 5],
    reSeqL [repN digC 3, .star wsC, .opt hsepC, .star wsC, repN digC 4,
            .star wsC, .opt hsepC, .star wsC, between digC 4 5],
    reSeqL [strC "National", .star wsC, strC "No", .opt (chC '.'), .star wsC,
            .opt (chC ':'), .star wsC,
            .grp (reSeqL [repN digC 3, .opt hsepC, repN digC 4, .opt hsepC,
                          between digC 4 5])],
    between digC 11 12,
    reSeqL [repN digC 3, repN digC 4, between digC 4 5],
    reSeqL [repN digC 3, dsepC, repN digC 4, dsepC, between digC 4 5],
    reSeqL [strC "الرقم", .star wsC, strC "الوطني", .star wsC, .opt (chC ':'),
            .star wsC,
            .grp (reSeqL [repN digC 3, .opt hsepC, repN digC 4, .opt hsepC,
                          between digC 4 5])] ]

/-- `PassportPatterns.date` (scanned with no flag). -/
def datePats : List RE :=
  [ reSeqL [repN digC 2, slashDashC, repN digC 2, slashDashC, repN digC 4],
    reSeqL [repN digC 2, .star wsC, slashDashC, .star wsC, repN digC 2,
            .star wsC, slashDashC, .star wsC, repN digC 4],
    reSeqL [between digC 1 2, slashDashC, between digC 1 2, slashDashC,
            repN digC 4],
    reSeqL [repN digC 2, chC '.', repN digC 2, chC '.', repN digC 4],
    reSeqL [repN digC 2, plus1 wsC, repN digC 2, plus1 wsC, repN digC 4],
    reSeqL [clsOf "0123", digC, anySepC, clsOf "01", digC, anySepC,
            clsOf "12", repN digC 3],
    reSeqL [repN digC 4, slashDashC, repN digC 2, slashDashC, repN digC 2] ]

/-- `PassportPatterns.name` (scanned with no flag). -/
def namePats : List RE :=
  [ reSeqL [atLeast upC 3, plus1 wsC, atLeast upC 3,
            .star (.seq (plus1 wsC) (atLeast upC 3))],
    .seq upC (between nameClsC 10 50),
    reSeqL [altL [strC "Name", strC "NAME"], .star wsC, .opt (chC ':'),
            .star wsC, .grp (plus1 upWsC)],
    reSeqL [strC "Full", .star wsC, strC "Name", .star wsC, .opt (chC ':'),
            .star wsC, .grp (plus1 upWsC)],
    .seq (between (.grp (.seq (atLeast upC 2) (plus1 wsC))) 2 6)
         (atLeast upC 2),
    .seq (plus1 upC) (between (.seq (plus1 wsC) (plus1 upC)) 1 5),
    reSeqL [strC "الاسم", .star wsC, .opt (chC ':'), .star wsC,
            .grp (plus1 upWsC)],
    reSeqL [strC "الاسم", .star wsC, strC "الكامل", .star wsC, .opt (chC ':'),
            .star wsC, .grp (plus1 upWsC)] ]

/-- `PassportPatterns.sex` (scanned with `re.IGNORECASE`). -/
def sexPats : List RE :=
  [ reSeqL [.wordB, clsOfI "f/", .wordB],
    reSeqL [.wordB, clsOfI "m/", .wordB],
    reSeqL [altL [strI "Sex", strI "Gender"], .star wsC, .opt (chC ':'),
            .star wsC, .grp mfI],
    reSeqL [altL [strI "Sex", strI "Gender"], .star wsC, .opt (chC ':'),
            .star wsC, .grp mfI, chC '/'],
    reSeqL [mfI, .star wsC, chC '/'],
    reSeqL [mfI, chC '/'],
    reSeqL [strC "الجنس", .star wsC, .opt (chC ':'), .star wsC, .grp mfI],
    altL [strC "ذكر", strC "أنثى"],
    reSeqL [altL [strI "Male", strI "Female"], .star wsC, .opt (chC ':'),
            .star wsC, .grp mfI],
    reSeqL [altL [strI "MALE", strI "FEMALE"], .star wsC, .opt (chC ':'),
            .star wsC, .grp mfI],
    reSeqL [altL [strI "M", strI "F"], .star wsC, .opt (chC ':'), .star wsC,
            .grp mfI],
    altL [strI "MALE", strI "FEMALE"],
    reSeqL [altL [strC "ذكر", strC "أنثى"], .star wsC, .opt (chC ':'),
            .star wsC, .grp mfI],
    reSeqL [altL [strC "ذكر", strC "أنثى"], .star wsC, .opt (chC ':'),
            .star wsC, .grp mfI, chC '/'] ]

/-- `PassportPatterns.sudan_places` (duplicates of the source kept). -/
def sudan_places : List String :=
  [ "KHARTOUM", "OMDURMAN", "BAHRI", "KASSALA", "PORTSUDAN",
    "NYALA", "ELOBEID", "GEDAREF", "WAD MADANI", "KOSTI",
    "ALFASHER", "DAMAZIN", "KADUGLI", "DONGOLA", "ATBARA",
    "SENNAR", "RABAK", "GENEINA", "DILLING", "ALAYYAT",
    "UMM RUWABA", "ZALINGEI", "ALQADARIF", "AD DOUIEM",
    "الخرطوم", "أم درمان", "بحري", "كسلا", "بورتسودان",
    "نيالا", "الأبيض", "القضارف", "ود مدني", "كوستي",
    "الفاشر", "الدمازين", "كادقلي", "دنقلا", "عطبرة",
    "KUWAIT", "الكويت", "RIYADH", "الرياض", "JEDDAH", "جدة", "MECCA", "مكة",
    "SAUDI ARABIA", "المملكة العربية السعودية",
    "SAUDI", "السعودية", "SAUDI ARABIA", "المملكة العربية السعودية",
    "IRAN", "إيران", "TUNISIA", "تونس", "ALGERIA", "الجزائر",
    "MOROCCO", "المغرب", "LIBYA", "ليبيا", "TURKEY", "تركيا", "SYRIA", "سوريا",
    "LEBANON", "لبنان", "JORDAN", "الأردن", "IRAQ", "العراق", "EGYPT", "مصر",
    "MOROCCO", "المغرب", "TURKEY", "تركيا", "SYRIA", "سوريا",
    "MOGTARBEEN", "المغتربين", "ALBYNEIA", "البينة" ]

/-- `PassportPatterns.sudan_indicators`. -/
def sudan_indicators : List String :=
  [ "SDN", "SUDAN", "REPUBLIC OF SUDAN", "REPUBLIC OF THE SUDAN",
    "السودان", "جمهورية السودان", "SUDANESE", "سوداني" ]

/-- `PassportPatterns.non_name_words`. -/
def non_name_words : List String :=
  [ "REPUBLIC", "SUDAN", "PASSPORT", "TYPE", "NATIONAL",
    "NUMBER", "DATE", "BIRTH", "ISSUE", "EXPIRY", "SEX",
    "PLACE", "NATIONALITY", "SIGNATURE", "HOLDER", "AUTHORITY",
    "GENDER", "COUNTRY", "CODE", "DOCUMENT", "IDENTIFICATION",
    "جمهورية", "السودان", "جواز", "نوع", "رقم",
    "تاريخ", "ميلاد", "إصدار", "انتهاء", "مكان" ]

end IDV

namespace IDV

/-! ## Kernel-computable rational arithmetic

The standard `ℚ` operations of the ambient library are declared
irreducible, so terms built from them cannot be evaluated by kernel
reduction (`decide` / `rfl`).  The float arithmetic of the Python code
is therefore embedded through the following `mkRat`-based operations;
the lemmas `qadd_eq`, `qsub_eq`, `qmul_eq`, `qdiv_eq` and `qOf_eq`
prove them equal to the standard `+`, `-`, `*`, `/` and numeral
construction, so every theorem below can be read with the ordinary
operations in place of the computable ones. -/

/-- Computable rational addition. -/
def qadd (a b : ℚ) : ℚ := mkRat (a.num * b.den + b.num * a.den) (a.den * b.den)

/-- Computable rational subtraction. -/
def qsub (a b : ℚ) : ℚ := mkRat (a.num * b.den - b.num * a.den) (a.den * b.den)

/-- Computable rational multiplication. -/
def qmul (a b : ℚ) : ℚ := mkRat (a.num * b.num) (a.den * b.den)

/-- Computable rational inverse. -/
def qinv (a : ℚ) : ℚ := Rat.divInt a.den a.num

/-- Computable rational division. -/
def qdiv (a b : ℚ) : ℚ := qmul a (qinv b)

/-- Computable rational literal `n / d` (used for the float literals of
the code: `qOf 95 100` is `0.95`, and so on). -/
def qOf (n : ℤ) (d : ℕ) : ℚ := mkRat n d

/-- Sum of a list of rationals. -/
def qsum (l : List ℚ) : ℚ := l.foldl qadd 0

theorem qadd_eq (a b : ℚ) : qadd a b = a + b := by
  unfold qadd
  rw [Rat.mkRat_eq_div]
  push_cast
  conv_rhs => rw [← Rat.num_div_den a, ← Rat.num_div_den b]
  rw [div_add_div _ _ (by positivity : (a.den : ℚ) ≠ 0)
      (by positivity : (b.den : ℚ) ≠ 0)]
  ring_nf

theorem qsub_eq (a b : ℚ) : qsub a b = a - b := by
  unfold qsub
  rw [Rat.mkRat_eq_div]
  push_cast
  conv_rhs => rw [← Rat.num_div_den a, ← Rat.num_div_den b]
  rw [div_sub_div _ _ (by positivity : (a.den : ℚ) ≠ 0)
      (by positivity : (b.den : ℚ) ≠ 0)]
  ring_nf

theorem qmul_eq (a b : ℚ) : qmul a b = a * b := by
  unfold qmul
  rw [Rat.mkRat_eq_div]
  push_cast
  conv_rhs => rw [← Rat.num_div_den a, ← Rat.num_div_den b]
  rw [div_mul_div_comm]

theorem qinv_eq (a : ℚ) : qinv a = a⁻¹ := by
  show Rat.divInt a.den a.num = a.inv
  rw [Rat.inv_def]

theorem qdiv_eq (a b : ℚ) : qdiv a b = a / b := by
  rw [qdiv, qmul_eq, qinv, ← Rat.inv_def, div_eq_mul_inv]; rfl

theorem qOf_eq (n : ℤ) (d : ℕ) : qOf n d = (n : ℚ) / d := Rat.mkRat_eq_div n d

/-! ## The field extractor (`extractor.py`, `UltraPassportExtractor`)

Python dictionaries (`confidence_scores`, `extraction_method`) are
modelled as first-match association lists: insertion prepends, lookup
takes the first hit, which gives dictionary lookup semantics. -/

/-- Dictionary assignment `m[k] = v`. -/
def dinsert (m : List (String × α)) (k : String) (v : α) : List (String × α) :=
  (k, v) :: m

/-- Dictionary lookup `m.get(k)`. -/
def dlookup (m : List (String × α)) (k : String) : Option α :=
  (m.find? fun p => p.1 == k).map (·.2)

/-- Dictionary membership `k in m`. -/
def hasKey (m : List (String × α)) (k : String) : Bool :=
  m.any fun p => p.1 == k

/-- The mutable result record built by `_smart_field_extraction`
(field `None` = absent). -/
structure ExtractionData where
  passport_type : Option String := none
  country_code : Option String := none
  passport_number : Option String := none
  full_name : Option String := none
  nationality : Option String := none
  place_of_birth : Option String := none
  sex : Option String := none
  date_of_birth : Option String := none
  date_of_issue : Option String := none
  date_of_expiry : Option String := none
  national_id : Option String := none
  confidence_scores : List (String × ℚ) := []
  extraction_method : List (String × String) := []
deriving DecidableEq

/-- Python substring test `nee in hay`. -/
def containsSub (hay nee : Str) : Bool :=
  (List.range (hay.length + 1)).any fun i => nee.isPrefixOf (hay.drop i)

/-- Python `str.upper` (ASCII; identity on the Arabic codepoints). -/
def toUpperStr (s : Str) : Str := s.map Char.toUpper

/-- Python `str.strip()`. -/
def stripW (s : Str) : Str :=
  ((s.dropWhile Char.isWhitespace).reverse.dropWhile Char.isWhitespace).reverse

/-- The candidate cleaning of `_extract_passport_number`:
`candidate.replace('O', '0').replace(' ', '').upper()`. -/
def cleanPassport (c : Str) : Str :=
  ((c.map fun ch => if ch = 'O' then '0' else ch).filter fun ch => ch ≠ ' ').map
    Char.toUpper

/-- Full-string shape `P` followed by 8-9 digits. -/
def passportShape : Str → Bool
  | 'P' :: rest =>
    decide (8 ≤ rest.length) && decide (rest.length ≤ 9) && rest.all Char.isDigit
  | _ => false

/-- Python `re.match(r'^X$', s)`: `$` also matches just before one final
newline, so the validator accepts `shape` with an optional trailing
newline. -/
def withTrailingNL (shape : Str → Bool) (s : Str) : Bool :=
  shape s || (s.getLast? == some '\n' && shape s.dropLast)

/-- The validation `re.match(r'^P[0-9]{8,9}$', candidate)`. -/
def validPassport (s : Str) : Bool := withTrailingNL passportShape s

/-- `_extract_passport_number`: scan observations in order; inside one
observation, patterns in order and matches left to right; the first
cleaned candidate passing validation is stored (confidence 0.95, method
= the observation's source label) and the scan stops. -/
def extract_passport_number (d : ExtractionData) :
    List (String × String) → ExtractionData
  | [] => d
  | (src, text) :: rest =>
    match ((candidatesOfText passportPats text.data).map cleanPassport).find?
        validPassport with
    | some v =>
      { d with passport_number := some (String.mk v),
               extraction_method := dinsert d.extraction_method "passport_number" src,
               confidence_scores :=
                 dinsert d.confidence_scores "passport_number" (qOf 95 100) }
    | none => extract_passport_number d rest

/-- The candidate cleaning of `_extract_national_id`:
`re.sub(r'[\s\.]', '-', candidate)` (each separator character
individually). -/
def cleanNatId (c : Str) : Str :=
  c.map fun ch => if ch.isWhitespace || ch = '.' then '-' else ch

/-- Full-string shape of `\d{3}-\d{4}-\d{4,5}`. -/
def natIdShape : Str → Bool
  | a :: b :: c :: '-' :: d :: e :: f :: g :: '-' :: rest =>
    [a, b, c, d, e, f, g].all Char.isDigit &&
      (rest.length == 4 || rest.length == 5) && rest.all Char.isDigit
  | _ => false

/-- The validation `re.match(r'^\d{3}-\d{4}-\d{4,5}$', candidate)`. -/
def validNatId (s : Str) : Bool := withTrailingNL natIdShape s

/-- `_extract_national_id`: first cleaned candidate passing validation
wins (confidence 0.9); scanned over the combined text. -/
def extract_national_id (d : ExtractionData) (text : Str) : ExtractionData :=
  match ((candidatesOfText natIdPats text).map cleanNatId).find? validNatId with
  | some v =>
    { d with national_id := some (String.mk v),
             confidence_scores := dinsert d.confidence_scores "national_id" (qOf 9 10) }
  | none => d

/-! ### Dates -/

/-- A parsed day-month-year triple. -/
structure PDate where
  day : ℕ
  month : ℕ
  year : ℕ
deriving DecidableEq

/-- Replace maximal runs of characters satisfying `p` by a single `r`
(Python `re.sub(p+, r, s)`); `inRun` records whether the previous
character was replaced. -/
def subRunsGo (p : Char → Bool) (r : Char) : Bool → Str → Str
  | _, [] => []
  | inRun, c :: t =>
    if p c then
      if inRun then subRunsGo p r true t else r :: subRunsGo p r true t
    else c :: subRunsGo p r false t

/-- Replace maximal runs of characters satisfying `p` by a single `r`. -/
def subRuns (p : Char → Bool) (r : Char) (s : Str) : Str := subRunsGo p r false s

/-- Date normalization of `_extract_dates`:
`re.sub(r'[\s\.]+', '-', date)` then `re.sub(r'/+', '-', date)`. -/
def normDate (s : Str) : Str :=
  subRuns (fun c => c = '/') '-' (subRuns (fun c => c.isWhitespace || c = '.') '-' s)

/-- Python `str.split('-')` (empty parts kept). -/
def splitDash : Str → List Str
  | [] => [[]]
  | c :: t =>
    if c = '-' then [] :: splitDash t
    else
      match splitDash t with
      | [] => [[c]]
      | h :: r => (c :: h) :: r

/-- Numeric value of a digit string. -/
def digitsVal (s : Str) : ℕ := s.foldl (fun a c => a * 10 + (c.toNat - 48)) 0

/-- Python `int(s)` for the separator-free parts produced by the date
normalization (digit strings; anything else raises and the date is
skipped — the downstream range check makes the theorems below
insensitive to the exotic corners of `int`). -/
def pyInt (s : Str) : Option ℕ :=
  if !s.isEmpty && s.all Char.isDigit then some (digitsVal s) else none

/-- The range validation of `_extract_dates`:
`1 <= day <= 31 and 1 <= month <= 12 and 1900 <= year <= 2100`. -/
def dateOK (d : PDate) : Prop :=
  1 ≤ d.day ∧ d.day ≤ 31 ∧ 1 ≤ d.month ∧ d.month ≤ 12 ∧
    1900 ≤ d.year ∧ d.year ≤ 2100

instance (d : PDate) : Decidable (dateOK d) := by unfold dateOK; infer_instance

/-- Parse one normalized date string into a validated triple
(`date.split('-')`, three parts, `int` each, range check). -/
def parseValidDate (s : Str) : Option PDate :=
  match splitDash s with
  | [p1, p2, p3] =>
    match pyInt p1, pyInt p2, pyInt p3 with
    | some day, some month, some year =>
      if dateOK ⟨day, month, year⟩ then some ⟨day, month, year⟩ else none
    | _, _, _ => none
  | _ => none

/-- Two-digit zero padding (`f"{n:02d}"` for `n < 100`). -/
def pad2 (n : ℕ) : String := if n < 10 then "0" ++ toString n else toString n

/-- The stored date string `f"{day:02d}-{month:02d}-{year}"`. -/
def fmtDate (d : PDate) : String :=
  pad2 d.day ++ "-" ++ pad2 d.month ++ "-" ++ toString d.year

/-- The sort key of `_extract_dates`: (year, month, day), encoded as a
single natural number (month and day are below 100, so the encoding
orders exactly like the lexicographic triple). -/
def dateKey (d : PDate) : ℕ := d.year * 10000 + d.month * 100 + d.day

/-- Chronological comparison used for sorting. -/
def dateLe (a b : PDate) : Prop := dateKey a ≤ dateKey b

instance : DecidableRel dateLe := fun _ _ => Nat.decLe _ _

instance : IsTotal PDate dateLe := ⟨fun _ _ => Nat.le_total _ _⟩

instance : IsTrans PDate dateLe := ⟨fun _ _ _ => Nat.le_trans⟩

instance : IsRefl PDate dateLe := ⟨fun _ => Nat.le_refl _⟩

/-- The deduplicated, chronologically sorted valid dates of a text.
The code formats each validated triple, deduplicates the formatted
strings with `set(...)` and sorts them by the parsed-back
(year, month, day) key; since formatting is injective on validated
triples and the sort key determines the string, this equals
deduplicating and sorting the triples themselves (any deduplication
preserving the set of triples gives the same sorted output; modelled
with `List.dedup` and a stable insertion sort). -/
def validDatesOf (text : Str) : List PDate :=
  List.insertionSort dateLe
    ((((candidatesOfText datePats text).map normDate).filterMap
        parseValidDate).dedup)

/-- `_extract_dates`: positional assignment over the sorted distinct
dates — earliest to `date_of_birth` (0.85); with at least two,
`valid_dates[-2]` (or `valid_dates[1]` if exactly two) to
`date_of_issue` (0.8); with at least three, the latest to
`date_of_expiry` (0.85). -/
def extract_dates (d : ExtractionData) (text : Str) : ExtractionData :=
  let vd := validDatesOf text
  let d1 :=
    match vd.get? 0 with
    | some t =>
      { d with date_of_birth := some (fmtDate t),
               confidence_scores := dinsert d.confidence_scores "date_of_birth" (qOf 85 100) }
    | none => d
  let d2 :=
    if 2 ≤ vd.length then
      match vd.get? (if 3 ≤ vd.length then vd.length - 2 else 1) with
      | some t =>
        { d1 with date_of_issue := some (fmtDate t),
                  confidence_scores := dinsert d1.confidence_scores "date_of_issue" (qOf 8 10) }
      | none => d1
    else d1
  if 3 ≤ vd.length then
    match vd.get? (vd.length - 1) with
    | some t =>
      { d2 with date_of_expiry := some (fmtDate t),
                confidence_scores := dinsert d2.confidence_scores "date_of_expiry" (qOf 85 100) }
    | none => d2
  else d2

/-! ### Name, sex, place, nationality -/

/-- The name candidates of `_extract_name`: per observation, per
pattern, per match; stripped; kept when containing no boilerplate word
and when 10-60 characters long.  Each candidate carries its source
label. -/
def nameCandidatesOf (all_texts : List (String × String)) :
    List (String × String) :=
  all_texts.flatMap fun st =>
    (candidatesOfText namePats st.2.data).filterMap fun v =>
      let name := stripW v
      if (!non_name_words.any fun w => containsSub name w.data) &&
          (decide (10 ≤ name.length) && decide (name.length ≤ 60)) then
        some (String.mk name, st.1)
      else none

/-- The ranked source-label preference of `_extract_name`. -/
def preferred_sources : List String :=
  ["uniform_block", "high_confidence", "single_column"]

/-- First candidate whose source label contains a preferred label,
preference ranks tried in order. -/
def findPreferred (cands : List (String × String)) :
    List String → Option (String × String)
  | [] => none
  | src :: rest =>
    match cands.find? fun c => containsSub c.2.data src.data with
    | some c => some c
    | none => findPreferred cands rest

/-- Python `max(xs, key=f)` (first maximal element), `none` on `[]`. -/
def pyMaxBy (f : α → ℕ) : List α → Option α
  | [] => none
  | x :: xs => some (xs.foldl (fun best y => if f best < f y then y else best) x)

/-- `_extract_name`: prefer a candidate from a ranked source
(confidence 0.85); otherwise the longest candidate (confidence 0.75). -/
def extract_name (d : ExtractionData) (all_texts : List (String × String)) :
    ExtractionData :=
  let cands := nameCandidatesOf all_texts
  match findPreferred cands preferred_sources with
  | some c =>
    { d with full_name := some c.1,
             extraction_method := dinsert d.extraction_method "full_name" c.2,
             confidence_scores := dinsert d.confidence_scores "full_name" (qOf 85 100) }
  | none =>
    match pyMaxBy (fun c => c.1.length) cands with
    | some c =>
      { d with full_name := some c.1,
               extraction_method := dinsert d.extraction_method "full_name" c.2,
               confidence_scores := dinsert d.confidence_scores "full_name" (qOf 75 100) }
    | none => d

/-- `_extract_sex` over its pattern list: on the first pattern with a
hit, store the uppercased first character of the hit value (`None` when
the value is empty) and confidence 0.95, then stop. -/
def extract_sex_go (d : ExtractionData) (text : Str) : List RE → ExtractionData
  | [] => d
  | p :: rest =>
    match reSearch p text with
    | some h =>
      { d with sex :=
                 match hitValue p h with
                 | [] => none
                 | c :: _ => some (String.mk [c.toUpper]),
               confidence_scores := dinsert d.confidence_scores "sex" (qOf 95 100) }
    | none => extract_sex_go d text rest

/-- `_extract_sex` on the combined text. -/
def extract_sex (d : ExtractionData) (text : Str) : ExtractionData :=
  extract_sex_go d text sexPats

/-- `_extract_place_of_birth` over the gazetteer: first place contained
in the uppercased text wins (confidence 0.85). -/
def extract_place_go (d : ExtractionData) (textUp : Str) :
    List String → ExtractionData
  | [] => d
  | place :: rest =>
    if containsSub textUp place.data then
      { d with place_of_birth := some place,
               confidence_scores := dinsert d.confidence_scores "place_of_birth" (qOf 85 100) }
    else extract_place_go d textUp rest

/-- `_extract_place_of_birth` on the combined text. -/
def extract_place_of_birth (d : ExtractionData) (text : Str) : ExtractionData :=
  extract_place_go d (toUpperStr text) sudan_places

/-- `_extract_nationality`: any Sudan indicator in the uppercased text
sets nationality, country code and passport type together, with a
confidence entry recorded for nationality only. -/
def extract_nationality (d : ExtractionData) (text : Str) : ExtractionData :=
  let tu := toUpperStr text
  if sudan_indicators.any fun ind => containsSub tu ind.data then
    { d with nationality := some "SUDANESE",
             country_code := some "SDN",
             passport_type := some "PC",
             confidence_scores := dinsert d.confidence_scores "nationality" (qOf 95 100) }
  else d

/-! ### Score, summary, the `extract` entry point -/

/-- Python truthiness of a field value (`None` and the empty string are
falsy). -/
def truthy : Option String → Bool
  | none => false
  | some s => !s.isEmpty

/-- The 8 "important" fields of `_calculate_score`, in source order. -/
def importantFields (d : ExtractionData) : List (Option String) :=
  [d.passport_number, d.full_name, d.nationality, d.date_of_birth,
   d.date_of_issue, d.date_of_expiry, d.national_id, d.sex]

/-- `_calculate_score`: `extracted / 8 * 100` (exact in binary floats,
modelled in `ℚ`; see `calculate_score_eq` for the formula with the
standard operations). -/
def calculate_score (d : ExtractionData) : ℚ :=
  qmul (qdiv ((importantFields d).countP truthy : ℚ) 8) 100

/-- The score formula with the standard rational operations. -/
theorem calculate_score_eq (d : ExtractionData) :
    calculate_score d = (((importantFields d).countP truthy : ℚ) / 8) * 100 := by
  rw [calculate_score, qmul_eq, qdiv_eq]

/-- The 10 summary fields of `_generate_summary`. -/
def summaryFields (d : ExtractionData) : List (Option String) :=
  [d.passport_number, d.full_name, d.nationality, d.national_id,
   d.date_of_birth, d.date_of_issue, d.date_of_expiry, d.sex,
   d.place_of_birth, d.country_code]

/-- `_generate_summary`. -/
def generate_summary (d : ExtractionData) : String :=
  toString ((summaryFields d).countP truthy) ++ "/10 fields extracted"

/-- The combined text `'\n'.join(text for _, text in all_texts)`. -/
def combinedOf (all_texts : List (String × String)) : Str :=
  List.intercalate ['\n'] (all_texts.map (fun st => st.2.data))

/-- `_smart_field_extraction`: run the seven field extractors in source
order; per-observation scans receive the observation list, the others
the newline-joined combined text. -/
def smart_field_extraction (all_texts : List (String × String)) :
    ExtractionData :=
  let combined : Str := combinedOf all_texts
  let d1 := extract_passport_number {} all_texts
  let d2 := extract_national_id d1 combined
  let d3 := extract_dates d2 combined
  let d4 := extract_name d3 all_texts
  let d5 := extract_sex d4 combined
  let d6 := extract_place_of_birth d5 combined
  extract_nationality d6 combined

/-- The finished extraction record with its score and summary. -/
structure ExtractionResult extends ExtractionData where
  extraction_score : ℚ
  extraction_summary : String
deriving DecidableEq

/-- `UltraPassportExtractor.extract`, given the observation bag (source
label, raw text) collected by the multi-pass OCR aggregation (the
aggregation itself only calls the external recognition engine and
relabels its outputs, so it enters the model as this input list). -/
def extract (all_texts : List (String × String)) : ExtractionResult :=
  let d := smart_field_extraction all_texts
  { toExtractionData := d,
    extraction_score := calculate_score d,
    extraction_summary := generate_summary d }

end IDV

namespace IDV

/-! ## The face processor (`face_processor.py`, `FaceProcessor`)

The external engines (InsightFace `face_app.get`, the OpenCV cascade
detector, the `face_recognition` library, OpenCV image statistics) are
external collaborators; they enter the model as an environment over an
abstract image type.  An engine call that can raise is an `Except`
value, and each Python `try/except` is a `match` on it.  `np.linalg.norm`
is `sqrtFn` applied to the sum of squares, with the square root itself a
function supplied by the environment (the claims below never depend on
its values). -/

instance {ε α : Type} [DecidableEq ε] [DecidableEq α] :
    DecidableEq (Except ε α) := fun
  | .error e, .error f =>
    match decEq e f with
    | isTrue h => isTrue (h ▸ rfl)
    | isFalse h => isFalse fun hh => h (Except.error.inj hh)
  | .error _, .ok _ => isFalse Except.noConfusion
  | .ok _, .error _ => isFalse Except.noConfusion
  | .ok a, .ok b =>
    match decEq a b with
    | isTrue h => isTrue (h ▸ rfl)
    | isFalse h => isFalse fun hh => h (Except.ok.inj hh)

/-- One face reported by the primary (InsightFace) engine: bounding box,
detection score, embedding (`None` models a face object whose embedding
attribute is unusable; landmark, age and gender are not consumed by any
claim and are omitted). -/
structure Face where
  bbox : Int × Int × Int × Int
  det_score : ℚ
  embedding : Option (List ℚ)
deriving DecidableEq

/-- The metadata dictionary built by `extract_face_from_document`. -/
structure FaceMeta where
  bbox : Int × Int × Int × Int
  det_score : ℚ
  embedding : Option (List ℚ)
  method : Option String := none
deriving DecidableEq

/-- The external engines and image primitives consumed by
`FaceProcessor`, over an abstract image type. -/
structure FaceEnv (Img : Type) where
  appGet : Img → Except String (List Face)
  cascadeDetect : Img → List (Int × Int × Int × Int)
  frEncodings : Img → Except String (List (List ℚ))
  frLocations : Img → Except String (List (List Int))
  dims : Img → Nat × Nat
  cropRect : Img → Int → Int → Int → Int → Img
  toGray : Img → Img
  enhanceOps : Img → Img
  sqrtFn : ℚ → ℚ
  lapVar : Img → ℚ
  satMean : Img → ℚ
  satStd : Img → ℚ
  cannyMeanRatio : Img → ℚ

/-- The configuration values of `_default_config` consumed by the
modelled paths. -/
structure FPConfig where
  threshold : ℚ
  padding : Int
  livenessMin : ℚ

/-- The default configuration (`threshold 0.4`, `padding 20`, liveness
`min_score 0.7`). -/
def defaultConfig : FPConfig := ⟨qOf 2 5, 20, qOf 7 10⟩

/-- The verification result dataclass `FaceVerificationResult`. -/
structure FVResult where
  verified : Bool
  confidence : ℚ
  face_locations : List (String × List Int)
  face_embeddings : List (String × Option (List ℚ))
  verification_method : String
  error : Option String := none
  liveness_score : Option ℚ := none
deriving DecidableEq

/-- Dot product `np.dot`. -/
def dotQ (a b : List ℚ) : ℚ := qsum (a.zipWith qmul b)

/-- `_cosine_similarity`: `np.dot(e1, e2) / (norm(e1) * norm(e2))`. -/
def cosine_similarity (sq : ℚ → ℚ) (e1 e2 : List ℚ) : ℚ :=
  qdiv (dotQ e1 e2) (qmul (sq (dotQ e1 e1)) (sq (dotQ e2 e2)))

/-- `extract_embedding`: embedding of the first face found by the
primary engine, `None` when the engine finds nothing or raises. -/
def extract_embedding {Img : Type} (env : FaceEnv Img) (img : Img) :
    Option (List ℚ) :=
  match env.appGet img with
  | .ok (f :: _) => f.embedding
  | .ok [] => none
  | .error _ => none

/-- Python `max(xs, key=f)` over a rational key (first maximal). -/
def pyMaxByQ (f : α → ℚ) : List α → Option α
  | [] => none
  | x :: xs => some (xs.foldl (fun best y => if f best < f y then y else best) x)

/-- Python `max(xs, key=f)` over an integer key (first maximal). -/
def pyMaxByI (f : α → Int) : List α → Option α
  | [] => none
  | x :: xs => some (xs.foldl (fun best y => if f best < f y then y else best) x)

/-- The fractional region of interest of `extract_face_from_document`
for a document of shape `(h, w)` (the Python `int(w*0.05)` etc.; for the
dimensions exercised here the float products are exact). -/
def roiRect (docType : String) (h w : Nat) : Nat × Nat × Nat × Nat :=
  if docType = "passport" then (w * 5 / 100, h * 30 / 100, w * 35 / 100, h * 80 / 100)
  else (w * 5 / 100, h * 20 / 100, w * 45 / 100, h * 80 / 100)

/-- The cropped region of interest a document face is searched in. -/
def docROI {Img : Type} (env : FaceEnv Img) (doc : Img) (docType : String) : Img :=
  let hw := env.dims doc
  let r := roiRect docType hw.1 hw.2
  env.cropRect doc (r.1 : Int) (r.2.1 : Int) (r.2.2.1 : Int) (r.2.2.2 : Int)

/-- `extract_face_from_document`: crop the document-type region of
interest; try the primary engine and take its highest-scoring face with
fixed padding clamped to the crop; fall back to the cascade detector and
take the largest box (synthetic score 0.8, no embedding); return `none`
(Python `(None, None)`) when neither finds a face or an exception is
raised. -/
def extract_face_from_document {Img : Type} (env : FaceEnv Img)
    (cfg : FPConfig) (doc : Img) (docType : String) :
    Option (Img × FaceMeta) :=
  let roi := docROI env doc docType
  match env.appGet roi with
  | .error _ => none
  | .ok faces =>
    match pyMaxByQ (fun f => f.det_score) faces with
    | some best =>
      let rdims := env.dims roi
      let pad := cfg.padding
      let x := max 0 (best.bbox.1 - pad)
      let y := max 0 (best.bbox.2.1 - pad)
      let x2 := min (rdims.2 : Int) (best.bbox.2.2.1 + pad)
      let y2 := min (rdims.1 : Int) (best.bbox.2.2.2 + pad)
      let face_img := env.cropRect roi x y x2 y2
      some (env.enhanceOps face_img,
            { bbox := best.bbox, det_score := best.det_score,
              embedding := best.embedding })
    | none =>
      let boxes := env.cascadeDetect (env.toGray roi)
      match pyMaxByI (fun b => b.2.2.1 * b.2.2.2) boxes with
      | some largest =>
        let rdims := env.dims roi
        let pad := cfg.padding
        let x := max 0 (largest.1 - pad)
        let y := max 0 (largest.2.1 - pad)
        let w := min ((rdims.2 : Int) - x) (largest.2.2.1 + 2 * pad)
        let h := min ((rdims.1 : Int) - y) (largest.2.2.2 + 2 * pad)
        let face_img := env.cropRect roi x y (x + w) (y + h)
        some (env.enhanceOps face_img,
              { bbox := (x, y, x + w, y + h), det_score := qOf 8 10,
                embedding := none, method := some "cascade" })
      | none => none

/-- The primary (InsightFace) verification path of `verify_faces`, up to
the outer `except`: an `Except.error` is an exception reaching that
handler. -/
def primaryVerify {Img : Type} (env : FaceEnv Img) (cfg : FPConfig)
    (id_face selfie : Img) (md : Option FaceMeta) : Except String FVResult :=
  let id_embedding : Option (List ℚ) :=
    match md with
    | some m =>
      match m.embedding with
      | some e => some e
      | none => extract_embedding env id_face
    | none => extract_embedding env id_face
  match env.appGet selfie with
  | .error e => .error e
  | .ok selfie_faces =>
    match id_embedding, selfie_faces with
    | none, _ => .error "Could not extract face embeddings"
    | some _, [] => .error "Could not extract face embeddings"
    | some ide, sf :: _ =>
      match sf.embedding with
      | none => .error "Could not extract face embeddings"
      | some se =>
        let similarity := cosine_similarity env.sqrtFn ide se
        .ok { verified := decide (qsub 1 cfg.threshold ≤ similarity),
              confidence := similarity,
              face_locations :=
                [("id_face",
                  match md with
                  | some m => [m.bbox.1, m.bbox.2.1, m.bbox.2.2.1, m.bbox.2.2.2]
                  | none => []),
                 ("selfie_face",
                  [sf.bbox.1, sf.bbox.2.1, sf.bbox.2.2.1, sf.bbox.2.2.2])],
              face_embeddings := [("id_face", some ide), ("selfie_face", some se)],
              verification_method := "insightface" }

/-- Minimum of a list of rationals (Python `min`; the callers below only
reach it with a nonempty list). -/
def listMin : List ℚ → ℚ
  | [] => 0
  | x :: xs => xs.foldl min x

/-- Elementwise difference of two vectors. -/
def vsub (a b : List ℚ) : List ℚ := a.zipWith qsub b

/-- `face_recognition.face_distance`: Euclidean distance of each
encoding to the compared encoding. -/
def faceDistance (sq : ℚ → ℚ) (encs : List (List ℚ)) (e : List ℚ) : List ℚ :=
  encs.map fun x => sq (dotQ (vsub x e) (vsub x e))

/-- `_verify_with_face_recognition`, the fallback path: encodings of
both images, minimum pairwise distance of all id encodings to the first
selfie encoding, confidence `1 - distance`, threshold applied directly. -/
def fallbackVerify {Img : Type} (env : FaceEnv Img) (cfg : FPConfig)
    (id_face selfie : Img) : Except String FVResult :=
  match env.frEncodings id_face with
  | .error e => .error e
  | .ok idE =>
    match env.frEncodings selfie with
    | .error e => .error e
    | .ok sE =>
      match idE, sE with
      | [], _ => .error "Could not find face in one or both images"
      | _ :: _, [] => .error "Could not find face in one or both images"
      | ie :: irest, s0 :: _ =>
        let distances := faceDistance env.sqrtFn (ie :: irest) s0
        let confidence := qsub 1 (listMin distances)
        match env.frLocations id_face with
        | .error e => .error e
        | .ok idL =>
          match env.frLocations selfie with
          | .error e => .error e
          | .ok sL =>
            .ok { verified := decide (cfg.threshold ≤ confidence),
                  confidence := confidence,
                  face_locations :=
                    [("id_face", idL.headD []), ("selfie_face", sL.headD [])],
                  face_embeddings := [("id_face", some ie), ("selfie_face", some s0)],
                  verification_method := "face_recognition" }

/-- The `method="failed"` result returned when both paths fail, carrying
the fallback's error message. -/
def failedResult (e : String) : FVResult :=
  { verified := false, confidence := 0, face_locations := [],
    face_embeddings := [], verification_method := "failed", error := some e }

/-- `verify_faces`: primary path; on any primary failure the fallback;
on fallback failure the `failed` result.  Total by construction - the
translation of the source's outer `try/except` around the whole body. -/
def verify_faces {Img : Type} (env : FaceEnv Img) (cfg : FPConfig)
    (id_face selfie : Img) (md : Option FaceMeta) : FVResult :=
  match primaryVerify env cfg id_face selfie md with
  | .ok r => r
  | .error _ =>
    match fallbackVerify env cfg id_face selfie with
    | .ok r => r
    | .error e2 => failedResult e2

/-- The fixed weights of `check_liveness`. -/
def livenessWeights : List ℚ := [qOf 25 100, qOf 25 100, qOf 3 10, qOf 1 5]

/-- `check_liveness`: three capped image-statistic signals, plus the
primary engine's detection score when a face is found with a truthy
(nonzero) score; combined as `sum(s * w for s, w in zip(scores,
weights[:len(scores)]))`.  The engine call is not wrapped in
`try/except`, so an engine error propagates to the caller. -/
def check_liveness {Img : Type} (env : FaceEnv Img) (i : Img) :
    Except String ℚ :=
  let blur := min (qdiv (env.lapVar i) 1000) 1
  let color := min (qdiv (qmul (env.satMean i) (env.satStd i)) 5000) 1
  let texture := min (qmul (env.cannyMeanRatio i) 10) 1
  match env.appGet i with
  | .error e => .error e
  | .ok faces =>
    let scores := [blur, color, texture] ++
      (match faces with
       | f :: _ => if f.det_score = 0 then [] else [f.det_score]
       | [] => [])
    .ok ((scores.zip livenessWeights).foldl (fun a p => qadd a (qmul p.1 p.2)) 0)

/-- Modelled from the spec: the same four signals "combined as a fixed
weighted sum (weights 0.25 / 0.25 / 0.30 / 0.20, renormalized if fewer
signals are available)" - i.e. the weighted sum divided by the total
weight of the available signals.  Stated for comparison with
`check_liveness`, which the code implements without renormalization. -/
def check_liveness_spec {Img : Type} (env : FaceEnv Img) (i : Img) :
    Except String ℚ :=
  let blur := min (qdiv (env.lapVar i) 1000) 1
  let color := min (qdiv (qmul (env.satMean i) (env.satStd i)) 5000) 1
  let texture := min (qmul (env.cannyMeanRatio i) 10) 1
  match env.appGet i with
  | .error e => .error e
  | .ok faces =>
    let scores := [blur, color, texture] ++
      (match faces with
       | f :: _ => if f.det_score = 0 then [] else [f.det_score]
       | [] => [])
    let wts := livenessWeights.take scores.length
    .ok (qdiv ((scores.zip wts).foldl (fun a p => qadd a (qmul p.1 p.2)) 0)
          (qsum wts))

end IDV

namespace IDV

/-! ## The orchestrator (`app.py`, `/verify-passport`)

The endpoint decodes both images, runs OCR extraction, extracts the
document face, and - when a face was found - verifies the faces and
checks liveness before computing the overall status.  Image decoding and
the OCR engine runs are external: the environment supplies the decoded
images and the observation bag that the multi-pass OCR aggregation
produces for the passport bytes.  The returned trace records which
pipeline components ran, so that the "never calls the Face Verifier"
claim is a statement about the trace.  `/verify-complete` computes its
`overall_verification.status` by the same formula
`'VERIFIED' if (verified and extraction_score > 70) else 'FAILED'`. -/

/-- Pipeline components whose invocation the trace records. -/
inductive VPEvent where
  | ocrDone : VPEvent
  | faceExtraction : VPEvent
  | faceVerification : VPEvent
  | livenessCheck : VPEvent
deriving DecidableEq

/-- The fields of the `/verify-passport` success response consumed by
the claims. -/
structure VPSuccess where
  ocr : ExtractionResult
  fv : FVResult
  liveness_score : ℚ
  liveness_passed : Bool
  overall_status : String
deriving DecidableEq

/-- The `/verify-passport` response: the 400 no-face failure (which
still carries the OCR result as `ocr_data`), the 500 handler for an
exception escaping a step (the un-wrapped engine call of
`check_liveness`), or the success payload. -/
inductive VPResponse where
  | noFace (ocr : ExtractionResult) : VPResponse
  | engineError (msg : String) : VPResponse
  | ok (r : VPSuccess) : VPResponse
deriving DecidableEq

/-- The environment of one `/verify-passport` request: the face-engine
environment plus image decoding and the OCR observation bag for the
uploaded passport bytes (bytes are abstract tokens). -/
structure OrchEnv (Img : Type) extends FaceEnv Img where
  decodePassport : Nat → Img
  decodeSelfie : Nat → Img
  ocrObservations : Nat → List (String × String)

/-- `verify_passport`: OCR extraction, face extraction, then - if a face
was found - face verification, liveness, and the decision
`'VERIFIED' if (verification_result.verified and
ocr_result['extraction_score'] > 70) else 'FAILED'` (the liveness result
is reported alongside but does not enter the decision). -/
def verify_passport {Img : Type} (env : OrchEnv Img) (cfg : FPConfig)
    (passportBytes selfieBytes : Nat) : VPResponse × List VPEvent :=
  let ocr := extract (env.ocrObservations passportBytes)
  let pimg := env.decodePassport passportBytes
  let simg := env.decodeSelfie selfieBytes
  match extract_face_from_document env.toFaceEnv cfg pimg "passport" with
  | none => (.noFace ocr, [.ocrDone, .faceExtraction])
  | some fm =>
    let fv := verify_faces env.toFaceEnv cfg fm.1 simg (some fm.2)
    match check_liveness env.toFaceEnv simg with
    | .error e =>
      (.engineError e, [.ocrDone, .faceExtraction, .faceVerification, .livenessCheck])
    | .ok ls =>
      let status :=
        if fv.verified = true ∧ 70 < ocr.extraction_score then "VERIFIED"
        else "FAILED"
      (.ok { ocr := ocr, fv := fv, liveness_score := ls,
             liveness_passed := decide (cfg.livenessMin ≤ ls),
             overall_status := status },
       [.ocrDone, .faceExtraction, .faceVerification, .livenessCheck])

/-- The overall status of a response (`none` for the failure responses,
which carry no `overall_verification` block). -/
def statusOf : VPResponse → Option String
  | .ok r => some r.overall_status
  | _ => none

/-- The reported `liveness_passed` flag of a response. -/
def livenessPassedOf : VPResponse → Option Bool
  | .ok r => some r.liveness_passed
  | _ => none

/-- The success payload of a response. -/
def okOf : VPResponse → Option VPSuccess
  | .ok r => some r
  | _ => none

end IDV

namespace IDV

/-! ## Concrete instantiations

Closed environments over `Img := Nat` used to evaluate the pipeline at
specific inputs.  Image tokens for the request environments: `0` the
decoded passport, `1` its region-of-interest crop, `2` the face crop,
`3` the enhanced face, `9` the decoded selfie. -/

/-- An observation bag whose extraction yields six of the eight
important fields (passport number, nationality, sex and the three
dates), hence extraction score 75. -/
def bagSix : List (String × String) :=
  [("uniform_block", "P12345678"),
   ("standard", "SUDAN M 01-01-1990 15-03-2015 15-03-2025")]

/-- A face-engine environment with no detectable faces, identity square
root and flat image statistics. -/
def envBase : FaceEnv Nat :=
  { appGet := fun _ => .ok [],
    cascadeDetect := fun _ => [],
    frEncodings := fun _ => .ok [],
    frLocations := fun _ => .ok [],
    dims := fun _ => (100, 100),
    cropRect := fun i _ _ _ _ => i,
    toGray := fun i => i,
    enhanceOps := fun i => i,
    sqrtFn := fun q => q,
    lapVar := fun _ => 0,
    satMean := fun _ => 0,
    satStd := fun _ => 0,
    cannyMeanRatio := fun _ => 0 }

/-- A full-verification request environment: the passport region of
interest and the selfie each contain one face with embedding `[1]` and
detection score 0.9, the OCR bag is `bagSix`, and all liveness
statistics are zero (liveness score 0.18). -/
def envFull : OrchEnv Nat :=
  { envBase with
    appGet := fun i =>
      if i = 1 then .ok [⟨(10, 10, 50, 50), qOf 9 10, some [1]⟩]
      else if i = 9 then .ok [⟨(0, 0, 10, 10), qOf 9 10, some [1]⟩]
      else .ok [],
    cropRect := fun i _ _ _ _ => if i = 0 then 1 else 2,
    enhanceOps := fun _ => 3,
    decodePassport := fun _ => 0,
    decodeSelfie := fun _ => 9,
    ocrObservations := fun _ => bagSix }

/-- A liveness environment where the three image-statistic signals all
cap at 1 and the face engine detects nothing. -/
def envLiveness : FaceEnv Nat :=
  { envBase with
    lapVar := fun _ => 1000,
    satMean := fun _ => 100,
    satStd := fun _ => 50,
    cannyMeanRatio := fun _ => qOf 1 10 }

/-- An environment where the primary engine raises and the fallback
library finds no encodings. -/
def envBothFail : FaceEnv Nat :=
  { envBase with appGet := fun _ => .error "engine down" }

/-- An environment where the primary engine raises and the fallback
library reports two encodings for image `0` and one for image `1`
(distances realized: 2 between `[2]` and `[0]`, 0 between `[0]` and
itself). -/
def envTwoEnc : FaceEnv Nat :=
  { envBase with
    appGet := fun _ => .error "down",
    frEncodings := fun i => if i = 0 then .ok [[2], [0]] else .ok [[0]],
    sqrtFn := fun q => if q = 4 then 2 else q }

/-- An environment where the primary engine raises and the fallback
library reports exactly one encoding per image. -/
def envOneEnc : FaceEnv Nat :=
  { envBase with
    appGet := fun _ => .error "down",
    frEncodings := fun i => if i = 0 then .ok [[2]] else .ok [[0]],
    sqrtFn := fun q => if q = 4 then 2 else q }

/-- An environment where both orders of the primary path succeed on
faces with embeddings `[1, 2]` and `[2, 1]`. -/
def envPrimaryPair : FaceEnv Nat :=
  { envBase with
    appGet := fun i =>
      if i = 0 then .ok [⟨(0, 0, 1, 1), 1, some [1, 2]⟩]
      else .ok [⟨(0, 0, 1, 1), 1, some [2, 1]⟩] }

/-- A request environment whose document face search finds nothing by
either detector. -/
def envNoFace : OrchEnv Nat :=
  { envBase with
    decodePassport := fun _ => 0,
    decodeSelfie := fun _ => 9,
    ocrObservations := fun _ => [("standard", "SUDAN")] }

/-! ## Dictionary lemmas -/

theorem dlookup_dinsert_self (m : List (String × α)) (k : String) (v : α) :
    dlookup (dinsert m k v) k = some v := by
  simp [dlookup, dinsert, List.find?]

theorem dlookup_dinsert_ne (m : List (String × α)) (k k' : String) (v : α)
    (h : k' ≠ k) : dlookup (dinsert m k v) k' = dlookup m k' := by
  simp only [dlookup, dinsert, List.find?]
  have : (k == k') = false := by
    simpa using fun hh => h hh.symm
  simp [this]

theorem hasKey_dinsert_self (m : List (String × α)) (k : String) (v : α) :
    hasKey (dinsert m k v) k = true := by
  simp [hasKey, dinsert]

theorem hasKey_dinsert_ne (m : List (String × α)) (k k' : String) (v : α)
    (h : k' ≠ k) : hasKey (dinsert m k v) k' = hasKey m k' := by
  simp only [hasKey, dinsert, List.any_cons]
  have : (k == k') = false := by
    simpa using fun hh => h hh.symm
  simp [this]

end IDV

namespace IDV

/-! ## Characterizations of the field extractors -/

def passportCandidatesFlat (texts : List (String × String)) : List Str :=
  texts.flatMap fun st => (candidatesOfText passportPats st.2.data).map cleanPassport

def firstValidPassport (texts : List (String × String)) : Option Str :=
  (passportCandidatesFlat texts).find? validPassport

theorem firstValidPassport_cons (st : String × String)
    (rest : List (String × String)) :
    firstValidPassport (st :: rest) =
      (((candidatesOfText passportPats st.2.data).map cleanPassport).find?
          validPassport).or (firstValidPassport rest) := by
  unfold firstValidPassport passportCandidatesFlat
  rw [List.flatMap_cons, List.find?_append]

theorem epn_none (d : ExtractionData) (texts : List (String × String))
    (h : firstValidPassport texts = none) :
    extract_passport_number d texts = d := by
  induction texts generalizing d with
  | nil => rfl
  | cons st rest ih =>
    rw [firstValidPassport_cons] at h
    unfold extract_passport_number
    cases hf : ((candidatesOfText passportPats st.2.data).map cleanPassport).find?
        validPassport with
    | some v =>
      rw [hf] at h
      rw [show (some v).or (firstValidPassport rest) = some v from rfl] at h
      cases h
    | none =>
      rw [hf] at h
      simp only [Option.none_or] at h
      exact ih d h

theorem epn_some (d : ExtractionData) (texts : List (String × String)) (v : Str)
    (h : firstValidPassport texts = some v) :
    ∃ src, extract_passport_number d texts =
      { d with passport_number := some (String.mk v),
               extraction_method := dinsert d.extraction_method "passport_number" src,
               confidence_scores :=
                 dinsert d.confidence_scores "passport_number" (qOf 95 100) } := by
  induction texts generalizing d with
  | nil => simp [firstValidPassport, passportCandidatesFlat] at h
  | cons st rest ih =>
    rw [firstValidPassport_cons] at h
    unfold extract_passport_number
    cases hf : ((candidatesOfText passportPats st.2.data).map cleanPassport).find?
        validPassport with
    | some w =>
      rw [hf] at h
      rw [show (some w).or (firstValidPassport rest) = some w from rfl] at h
      cases h
      exact ⟨st.1, rfl⟩
    | none =>
      rw [hf] at h
      simp only [Option.none_or] at h
      exact ih d h

end IDV

namespace IDV

def sexFirstHit (text : Str) : List RE → Option Str
  | [] => none
  | p :: rest =>
    match reSearch p text with
    | some h => some (hitValue p h)
    | none => sexFirstHit text rest

theorem sex_go_eq (d : ExtractionData) (text : Str) (pats : List RE) :
    extract_sex_go d text pats =
      match sexFirstHit text pats with
      | none => d
      | some v =>
        { d with sex := (match v with
                         | [] => none
                         | c :: _ => some (String.mk [c.toUpper])),
                 confidence_scores := dinsert d.confidence_scores "sex" (qOf 95 100) } := by
  induction pats with
  | nil => rfl
  | cons p rest ih =>
    unfold extract_sex_go sexFirstHit
    cases reSearch p text with
    | some h => rfl
    | none => exact ih

def placeFirst (textUp : Str) : List String → Option String
  | [] => none
  | pl :: rest => if containsSub textUp pl.data then some pl else placeFirst textUp rest

theorem place_go_eq (d : ExtractionData) (textUp : Str) (places : List String) :
    extract_place_go d textUp places =
      match placeFirst textUp places with
      | none => d
      | some pl =>
        { d with place_of_birth := some pl,
                 confidence_scores :=
                   dinsert d.confidence_scores "place_of_birth" (qOf 85 100) } := by
  induction places with
  | nil => rfl
  | cons pl rest ih =>
    unfold extract_place_go placeFirst
    by_cases hc : containsSub textUp pl.data
    · simp [hc]
    · simp only [hc, if_false, Bool.false_eq_true]
      exact ih

end IDV

namespace IDV

theorem epn_frame (d : ExtractionData) (texts : List (String × String)) :
    ((extract_passport_number d texts).passport_type = d.passport_type)
    ∧ ((extract_passport_number d texts).country_code = d.country_code)
    ∧ ((extract_passport_number d texts).full_name = d.full_name)
    ∧ ((extract_passport_number d texts).nationality = d.nationality)
    ∧ ((extract_passport_number d texts).place_of_birth = d.place_of_birth)
    ∧ ((extract_passport_number d texts).sex = d.sex)
    ∧ ((extract_passport_number d texts).date_of_birth = d.date_of_birth)
    ∧ ((extract_passport_number d texts).date_of_issue = d.date_of_issue)
    ∧ ((extract_passport_number d texts).date_of_expiry = d.date_of_expiry)
    ∧ ((extract_passport_number d texts).national_id = d.national_id)
    ∧ (∀ k, k ≠ "passport_number" →
        dlookup (extract_passport_number d texts).confidence_scores k
          = dlookup d.confidence_scores k) := by
  cases h : firstValidPassport texts with
  | none => rw [epn_none d texts h]; exact ⟨rfl, rfl, rfl, rfl, rfl, rfl, rfl, rfl,
      rfl, rfl, fun _ _ => rfl⟩
  | some v =>
    obtain ⟨src, he⟩ := epn_some d texts v h
    rw [he]
    exact ⟨rfl, rfl, rfl, rfl, rfl, rfl, rfl, rfl, rfl, rfl,
      fun k hk => dlookup_dinsert_ne _ _ _ _ hk⟩

theorem eni_frame (d : ExtractionData) (text : Str) :
    ((extract_national_id d text).passport_type = d.passport_type)
    ∧ ((extract_national_id d text).country_code = d.country_code)
    ∧ ((extract_national_id d text).passport_number = d.passport_number)
    ∧ ((extract_national_id d text).full_name = d.full_name)
    ∧ ((extract_national_id d text).nationality = d.nationality)
    ∧ ((extract_national_id d text).place_of_birth = d.place_of_birth)
    ∧ ((extract_national_id d text).sex = d.sex)
    ∧ ((extract_national_id d text).date_of_birth = d.date_of_birth)
    ∧ ((extract_national_id d text).date_of_issue = d.date_of_issue)
    ∧ ((extract_national_id d text).date_of_expiry = d.date_of_expiry)
    ∧ (∀ k, k ≠ "national_id" →
        dlookup (extract_national_id d text).confidence_scores k
          = dlookup d.confidence_scores k) := by
  unfold extract_national_id
  cases ((candidatesOfText natIdPats text).map cleanNatId).find? validNatId with
  | none => exact ⟨rfl, rfl, rfl, rfl, rfl, rfl, rfl, rfl, rfl, rfl, fun _ _ => rfl⟩
  | some v => exact ⟨rfl, rfl, rfl, rfl, rfl, rfl, rfl, rfl, rfl, rfl,
      fun k hk => dlookup_dinsert_ne _ _ _ _ hk⟩

theorem edates_frame (d : ExtractionData) (text : Str) :
    ((extract_dates d text).passport_type = d.passport_type)
    ∧ ((extract_dates d text).country_code = d.country_code)
    ∧ ((extract_dates d text).passport_number = d.passport_number)
    ∧ ((extract_dates d text).full_name = d.full_name)
    ∧ ((extract_dates d text).nationality = d.nationality)
    ∧ ((extract_dates d text).place_of_birth = d.place_of_birth)
    ∧ ((extract_dates d text).sex = d.sex)
    ∧ ((extract_dates d text).national_id = d.national_id)
    ∧ (∀ k, k ≠ "date_of_birth" → k ≠ "date_of_issue" → k ≠ "date_of_expiry" →
        dlookup (extract_dates d text).confidence_scores k
          = dlookup d.confidence_scores k) := by
  simp only [extract_dates]
  generalize validDatesOf text = vd
  refine ⟨?_, ?_, ?_, ?_, ?_, ?_, ?_, ?_, ?_⟩ <;>
    (repeat' split) <;>
    first
      | rfl
      | (intro k h1 h2 h3
         simp only [dlookup_dinsert_ne _ _ _ _ h1, dlookup_dinsert_ne _ _ _ _ h2,
           dlookup_dinsert_ne _ _ _ _ h3])

theorem ename_frame (d : ExtractionData) (texts : List (String × String)) :
    ((extract_name d texts).passport_type = d.passport_type)
    ∧ ((extract_name d texts).country_code = d.country_code)
    ∧ ((extract_name d texts).passport_number = d.passport_number)
    ∧ ((extract_name d texts).nationality = d.nationality)
    ∧ ((extract_name d texts).place_of_birth = d.place_of_birth)
    ∧ ((extract_name d texts).sex = d.sex)
    ∧ ((extract_name d texts).date_of_birth = d.date_of_birth)
    ∧ ((extract_name d texts).date_of_issue = d.date_of_issue)
    ∧ ((extract_name d texts).date_of_expiry = d.date_of_expiry)
    ∧ ((extract_name d texts).national_id = d.national_id)
    ∧ (∀ k, k ≠ "full_name" →
        dlookup (extract_name d texts).confidence_scores k
          = dlookup d.confidence_scores k) := by
  simp only [extract_name]
  generalize nameCandidatesOf texts = cands
  refine ⟨?_, ?_, ?_, ?_, ?_, ?_, ?_, ?_, ?_, ?_, ?_⟩ <;>
    (repeat' split) <;>
    first
      | rfl
      | (intro k hk; first | rfl | exact dlookup_dinsert_ne _ _ _ _ hk)

theorem esex_frame (d : ExtractionData) (text : Str) :
    ((extract_sex d text).passport_type = d.passport_type)
    ∧ ((extract_sex d text).country_code = d.country_code)
    ∧ ((extract_sex d text).passport_number = d.passport_number)
    ∧ ((extract_sex d text).full_name = d.full_name)
    ∧ ((extract_sex d text).nationality = d.nationality)
    ∧ ((extract_sex d text).place_of_birth = d.place_of_birth)
    ∧ ((extract_sex d text).date_of_birth = d.date_of_birth)
    ∧ ((extract_sex d text).date_of_issue = d.date_of_issue)
    ∧ ((extract_sex d text).date_of_expiry = d.date_of_expiry)
    ∧ ((extract_sex d text).national_id = d.national_id)
    ∧ (∀ k, k ≠ "sex" →
        dlookup (extract_sex d text).confidence_scores k
          = dlookup d.confidence_scores k) := by
  unfold extract_sex
  rw [sex_go_eq]
  cases sexFirstHit text sexPats with
  | none => exact ⟨rfl, rfl, rfl, rfl, rfl, rfl, rfl, rfl, rfl, rfl, fun _ _ => rfl⟩
  | some v => exact ⟨rfl, rfl, rfl, rfl, rfl, rfl, rfl, rfl, rfl, rfl,
      fun k hk => dlookup_dinsert_ne _ _ _ _ hk⟩

theorem eplace_frame (d : ExtractionData) (text : Str) :
    ((extract_place_of_birth d text).passport_type = d.passport_type)
    ∧ ((extract_place_of_birth d text).country_code = d.country_code)
    ∧ ((extract_place_of_birth d text).passport_number = d.passport_number)
    ∧ ((extract_place_of_birth d text).full_name = d.full_name)
    ∧ ((extract_place_of_birth d text).nationality = d.nationality)
    ∧ ((extract_place_of_birth d text).sex = d.sex)
    ∧ ((extract_place_of_birth d text).date_of_birth = d.date_of_birth)
    ∧ ((extract_place_of_birth d text).date_of_issue = d.date_of_issue)
    ∧ ((extract_place_of_birth d text).date_of_expiry = d.date_of_expiry)
    ∧ ((extract_place_of_birth d text).national_id = d.national_id)
    ∧ (∀ k, k ≠ "place_of_birth" →
        dlookup (extract_place_of_birth d text).confidence_scores k
          = dlookup d.confidence_scores k) := by
  unfold extract_place_of_birth
  rw [place_go_eq]
  cases placeFirst (toUpperStr text) sudan_places with
  | none => exact ⟨rfl, rfl, rfl, rfl, rfl, rfl, rfl, rfl, rfl, rfl, fun _ _ => rfl⟩
  | some v => exact ⟨rfl, rfl, rfl, rfl, rfl, rfl, rfl, rfl, rfl, rfl,
      fun k hk => dlookup_dinsert_ne _ _ _ _ hk⟩

theorem enat_frame (d : ExtractionData) (text : Str) :
    ((extract_nationality d text).passport_number = d.passport_number)
    ∧ ((extract_nationality d text).full_name = d.full_name)
    ∧ ((extract_nationality d text).place_of_birth = d.place_of_birth)
    ∧ ((extract_nationality d text).sex = d.sex)
    ∧ ((extract_nationality d text).date_of_birth = d.date_of_birth)
    ∧ ((extract_nationality d text).date_of_issue = d.date_of_issue)
    ∧ ((extract_nationality d text).date_of_expiry = d.date_of_expiry)
    ∧ ((extract_nationality d text).national_id = d.national_id)
    ∧ (∀ k, k ≠ "nationality" →
        dlookup (extract_nationality d text).confidence_scores k
          = dlookup d.confidence_scores k) := by
  simp only [extract_nationality]
  split
  · exact ⟨rfl, rfl, rfl, rfl, rfl, rfl, rfl, rfl,
      fun k hk => dlookup_dinsert_ne _ _ _ _ hk⟩
  · exact ⟨rfl, rfl, rfl, rfl, rfl, rfl, rfl, rfl, fun _ _ => rfl⟩

end IDV

namespace IDV

/-! ### Named frame components -/

theorem epn_pt (d texts) : (extract_passport_number d texts).passport_type = d.passport_type := (epn_frame d texts).1
theorem epn_cc (d texts) : (extract_passport_number d texts).country_code = d.country_code := (epn_frame d texts).2.1
theorem epn_fn (d texts) : (extract_passport_number d texts).full_name = d.full_name := (epn_frame d texts).2.2.1
theorem epn_nat (d texts) : (extract_passport_number d texts).nationality = d.nationality := (epn_frame d texts).2.2.2.1
theorem epn_pob (d texts) : (extract_passport_number d texts).place_of_birth = d.place_of_birth := (epn_frame d texts).2.2.2.2.1
theorem epn_sex (d texts) : (extract_passport_number d texts).sex = d.sex := (epn_frame d texts).2.2.2.2.2.1
theorem epn_dob (d texts) : (extract_passport_number d texts).date_of_birth = d.date_of_birth := (epn_frame d texts).2.2.2.2.2.2.1
theorem epn_doi (d texts) : (extract_passport_number d texts).date_of_issue = d.date_of_issue := (epn_frame d texts).2.2.2.2.2.2.2.1
theorem epn_doe (d texts) : (extract_passport_number d texts).date_of_expiry = d.date_of_expiry := (epn_frame d texts).2.2.2.2.2.2.2.2.1
theorem epn_nid (d texts) : (extract_passport_number d texts).national_id = d.national_id := (epn_frame d texts).2.2.2.2.2.2.2.2.2.1
theorem epn_conf (d texts) (k) (h : k ≠ "passport_number") :
    dlookup (extract_passport_number d texts).confidence_scores k = dlookup d.confidence_scores k := (epn_frame d texts).2.2.2.2.2.2.2.2.2.2 k h

theorem eni_pt (d t) : (extract_national_id d t).passport_type = d.passport_type := (eni_frame d t).1
theorem eni_cc (d t) : (extract_national_id d t).country_code = d.country_code := (eni_frame d t).2.1
theorem eni_pn (d t) : (extract_national_id d t).passport_number = d.passport_number := (eni_frame d t).2.2.1
theorem eni_fn (d t) : (extract_national_id d t).full_name = d.full_name := (eni_frame d t).2.2.2.1
theorem eni_nat (d t) : (extract_national_id d t).nationality = d.nationality := (eni_frame d t).2.2.2.2.1
theorem eni_pob (d t) : (extract_national_id d t).place_of_birth = d.place_of_birth := (eni_frame d t).2.2.2.2.2.1
theorem eni_sex (d t) : (extract_national_id d t).sex = d.sex := (eni_frame d t).2.2.2.2.2.2.1
theorem eni_dob (d t) : (extract_national_id d t).date_of_birth = d.date_of_birth := (eni_frame d t).2.2.2.2.2.2.2.1
theorem eni_doi (d t) : (extract_national_id d t).date_of_issue = d.date_of_issue := (eni_frame d t).2.2.2.2.2.2.2.2.1
theorem eni_doe (d t) : (extract_national_id d t).date_of_expiry = d.date_of_expiry := (eni_frame d t).2.2.2.2.2.2.2.2.2.1
theorem eni_conf (d t) (k) (h : k ≠ "national_id") :
    dlookup (extract_national_id d t).confidence_scores k = dlookup d.confidence_scores k := (eni_frame d t).2.2.2.2.2.2.2.2.2.2 k h

theorem edates_pt (d t) : (extract_dates d t).passport_type = d.passport_type := (edates_frame d t).1
theorem edates_cc (d t) : (extract_dates d t).country_code = d.country_code := (edates_frame d t).2.1
theorem edates_pn (d t) : (extract_dates d t).passport_number = d.passport_number := (edates_frame d t).2.2.1
theorem edates_fn (d t) : (extract_dates d t).full_name = d.full_name := (edates_frame d t).2.2.2.1
theorem edates_nat (d t) : (extract_dates d t).nationality = d.nationality := (edates_frame d t).2.2.2.2.1
theorem edates_pob (d t) : (extract_dates d t).place_of_birth = d.place_of_birth := (edates_frame d t).2.2.2.2.2.1
theorem edates_sex (d t) : (extract_dates d t).sex = d.sex := (edates_frame d t).2.2.2.2.2.2.1
theorem edates_nid (d t) : (extract_dates d t).national_id = d.national_id := (edates_frame d t).2.2.2.2.2.2.2.1
theorem edates_conf (d t) (k) (h1 : k ≠ "date_of_birth") (h2 : k ≠ "date_of_issue") (h3 : k ≠ "date_of_expiry") :
    dlookup (extract_dates d t).confidence_scores k = dlookup d.confidence_scores k := (edates_frame d t).2.2.2.2.2.2.2.2 k h1 h2 h3

theorem ename_pt (d texts) : (extract_name d texts).passport_type = d.passport_type := (ename_frame d texts).1
theorem ename_cc (d texts) : (extract_name d texts).country_code = d.country_code := (ename_frame d texts).2.1
theorem ename_pn (d texts) : (extract_name d texts).passport_number = d.passport_number := (ename_frame d texts).2.2.1
theorem ename_nat (d texts) : (extract_name d texts).nationality = d.nationality := (ename_frame d texts).2.2.2.1
theorem ename_pob (d texts) : (extract_name d texts).place_of_birth = d.place_of_birth := (ename_frame d texts).2.2.2.2.1
theorem ename_sex (d texts) : (extract_name d texts).sex = d.sex := (ename_frame d texts).2.2.2.2.2.1
theorem ename_dob (d texts) : (extract_name d texts).date_of_birth = d.date_of_birth := (ename_frame d texts).2.2.2.2.2.2.1
theorem ename_doi (d texts) : (extract_name d texts).date_of_issue = d.date_of_issue := (ename_frame d texts).2.2.2.2.2.2.2.1
theorem ename_doe (d texts) : (extract_name d texts).date_of_expiry = d.date_of_expiry := (ename_frame d texts).2.2.2.2.2.2.2.2.1
theorem ename_nid (d texts) : (extract_name d texts).national_id = d.national_id := (ename_frame d texts).2.2.2.2.2.2.2.2.2.1
theorem ename_conf (d texts) (k) (h : k ≠ "full_name") :
    dlookup (extract_name d texts).confidence_scores k = dlookup d.confidence_scores k := (ename_frame d texts).2.2.2.2.2.2.2.2.2.2 k h

theorem esex_pt (d t) : (extract_sex d t).passport_type = d.passport_type := (esex_frame d t).1
theorem esex_cc (d t) : (extract_sex d t).country_code = d.country_code := (esex_frame d t).2.1
theorem esex_pn (d t) : (extract_sex d t).passport_number = d.passport_number := (esex_frame d t).2.2.1
theorem esex_fn (d t) : (extract_sex d t).full_name = d.full_name := (esex_frame d t).2.2.2.1
theorem esex_nat (d t) : (extract_sex d t).nationality = d.nationality := (esex_frame d t).2.2.2.2.1
theorem esex_pob (d t) : (extract_sex d t).place_of_birth = d.place_of_birth := (esex_frame d t).2.2.2.2.2.1
theorem esex_dob (d t) : (extract_sex d t).date_of_birth = d.date_of_birth := (esex_frame d t).2.2.2.2.2.2.1
theorem esex_doi (d t) : (extract_sex d t).date_of_issue = d.date_of_issue := (esex_frame d t).2.2.2.2.2.2.2.1
theorem esex_doe (d t) : (extract_sex d t).date_of_expiry = d.date_of_expiry := (esex_frame d t).2.2.2.2.2.2.2.2.1
theorem esex_nid (d t) : (extract_sex d t).national_id = d.national_id := (esex_frame d t).2.2.2.2.2.2.2.2.2.1
theorem esex_conf (d t) (k) (h : k ≠ "sex") :
    dlookup (extract_sex d t).confidence_scores k = dlookup d.confidence_scores k := (esex_frame d t).2.2.2.2.2.2.2.2.2.2 k h

theorem eplace_pt (d t) : (extract_place_of_birth d t).passport_type = d.passport_type := (eplace_frame d t).1
theorem eplace_cc (d t) : (extract_place_of_birth d t).country_code = d.country_code := (eplace_frame d t).2.1
theorem eplace_pn (d t) : (extract_place_of_birth d t).passport_number = d.passport_number := (eplace_frame d t).2.2.1
theorem eplace_fn (d t) : (extract_place_of_birth d t).full_name = d.full_name := (eplace_frame d t).2.2.2.1
theorem eplace_nat (d t) : (extract_place_of_birth d t).nationality = d.nationality := (eplace_frame d t).2.2.2.2.1
theorem eplace_sex (d t) : (extract_place_of_birth d t).sex = d.sex := (eplace_frame d t).2.2.2.2.2.1
theorem eplace_dob (d t) : (extract_place_of_birth d t).date_of_birth = d.date_of_birth := (eplace_frame d t).2.2.2.2.2.2.1
theorem eplace_doi (d t) : (extract_place_of_birth d t).date_of_issue = d.date_of_issue := (eplace_frame d t).2.2.2.2.2.2.2.1
theorem eplace_doe (d t) : (extract_place_of_birth d t).date_of_expiry = d.date_of_expiry := (eplace_frame d t).2.2.2.2.2.2.2.2.1
theorem eplace_nid (d t) : (extract_place_of_birth d t).national_id = d.national_id := (eplace_frame d t).2.2.2.2.2.2.2.2.2.1
theorem eplace_conf (d t) (k) (h : k ≠ "place_of_birth") :
    dlookup (extract_place_of_birth d t).confidence_scores k = dlookup d.confidence_scores k := (eplace_frame d t).2.2.2.2.2.2.2.2.2.2 k h

theorem enat_pn (d t) : (extract_nationality d t).passport_number = d.passport_number := (enat_frame d t).1
theorem enat_fn (d t) : (extract_nationality d t).full_name = d.full_name := (enat_frame d t).2.1
theorem enat_pob (d t) : (extract_nationality d t).place_of_birth = d.place_of_birth := (enat_frame d t).2.2.1
theorem enat_sex (d t) : (extract_nationality d t).sex = d.sex := (enat_frame d t).2.2.2.1
theorem enat_dob (d t) : (extract_nationality d t).date_of_birth = d.date_of_birth := (enat_frame d t).2.2.2.2.1
theorem enat_doi (d t) : (extract_nationality d t).date_of_issue = d.date_of_issue := (enat_frame d t).2.2.2.2.2.1
theorem enat_doe (d t) : (extract_nationality d t).date_of_expiry = d.date_of_expiry := (enat_frame d t).2.2.2.2.2.2.1
theorem enat_nid (d t) : (extract_nationality d t).national_id = d.national_id := (enat_frame d t).2.2.2.2.2.2.2.1
theorem enat_conf (d t) (k) (h : k ≠ "nationality") :
    dlookup (extract_nationality d t).confidence_scores k = dlookup d.confidence_scores k := (enat_frame d t).2.2.2.2.2.2.2.2 k h

end IDV

namespace IDV

/-! ### Characterization of `_smart_field_extraction` field by field -/

/-- The national-id scan over a text: first cleaned candidate passing
validation. -/
def natIdScan (text : Str) : Option Str :=
  ((candidatesOfText natIdPats text).map cleanNatId).find? validNatId

theorem sfe_unfold (texts : List (String × String)) :
    smart_field_extraction texts
      = extract_nationality (extract_place_of_birth (extract_sex (extract_name
          (extract_dates (extract_national_id (extract_passport_number {} texts)
            (combinedOf texts)) (combinedOf texts)) texts) (combinedOf texts))
          (combinedOf texts)) (combinedOf texts) := rfl

theorem sfe_passport_number (texts : List (String × String)) :
    (smart_field_extraction texts).passport_number
      = (firstValidPassport texts).map (fun v => String.mk v)
    ∧ dlookup (smart_field_extraction texts).confidence_scores "passport_number"
      = (firstValidPassport texts).map (fun _ => qOf 95 100) := by
  refine ⟨?_, ?_⟩
  · rw [sfe_unfold, enat_pn, eplace_pn, esex_pn, ename_pn, edates_pn, eni_pn]
    cases h : firstValidPassport texts with
    | none => rw [epn_none _ _ h]; rfl
    | some v => obtain ⟨src, he⟩ := epn_some _ _ _ h; rw [he]; rfl
  · rw [sfe_unfold, enat_conf _ _ _ (by decide), eplace_conf _ _ _ (by decide),
      esex_conf _ _ _ (by decide), ename_conf _ _ _ (by decide),
      edates_conf _ _ _ (by decide) (by decide) (by decide),
      eni_conf _ _ _ (by decide)]
    cases h : firstValidPassport texts with
    | none => rw [epn_none _ _ h]; rfl
    | some v =>
      obtain ⟨src, he⟩ := epn_some _ _ _ h
      rw [he]
      exact dlookup_dinsert_self _ _ _

theorem sfe_national_id (texts : List (String × String)) :
    (smart_field_extraction texts).national_id
      = (natIdScan (combinedOf texts)).map (fun v => String.mk v)
    ∧ dlookup (smart_field_extraction texts).confidence_scores "national_id"
      = (natIdScan (combinedOf texts)).map (fun _ => qOf 9 10) := by
  refine ⟨?_, ?_⟩
  · rw [sfe_unfold, enat_nid, eplace_nid, esex_nid, ename_nid, edates_nid]
    unfold extract_national_id
    rw [show ((candidatesOfText natIdPats (combinedOf texts)).map cleanNatId).find?
        validNatId = natIdScan (combinedOf texts) from rfl]
    cases natIdScan (combinedOf texts) with
    | none => rw [epn_nid]; rfl
    | some v => rfl
  · rw [sfe_unfold, enat_conf _ _ _ (by decide), eplace_conf _ _ _ (by decide),
      esex_conf _ _ _ (by decide), ename_conf _ _ _ (by decide),
      edates_conf _ _ _ (by decide) (by decide) (by decide)]
    unfold extract_national_id
    rw [show ((candidatesOfText natIdPats (combinedOf texts)).map cleanNatId).find?
        validNatId = natIdScan (combinedOf texts) from rfl]
    cases h : natIdScan (combinedOf texts) with
    | none =>
      rw [epn_conf _ _ _ (by decide)]
      rfl
    | some v => exact dlookup_dinsert_self _ _ _

end IDV

namespace IDV

theorem extract_dates_char (d : ExtractionData) (text : Str) :
    ((extract_dates d text).date_of_birth
      = match (validDatesOf text).get? 0 with
        | some t => some (fmtDate t)
        | none => d.date_of_birth)
    ∧ (dlookup (extract_dates d text).confidence_scores "date_of_birth"
      = match (validDatesOf text).get? 0 with
        | some _ => some (qOf 85 100)
        | none => dlookup d.confidence_scores "date_of_birth")
    ∧ ((extract_dates d text).date_of_issue
      = if 2 ≤ (validDatesOf text).length then
          match (validDatesOf text).get?
              (if 3 ≤ (validDatesOf text).length then (validDatesOf text).length - 2
               else 1) with
          | some t => some (fmtDate t)
          | none => d.date_of_issue
        else d.date_of_issue)
    ∧ (dlookup (extract_dates d text).confidence_scores "date_of_issue"
      = if 2 ≤ (validDatesOf text).length then
          match (validDatesOf text).get?
              (if 3 ≤ (validDatesOf text).length then (validDatesOf text).length - 2
               else 1) with
          | some _ => some (qOf 8 10)
          | none => dlookup d.confidence_scores "date_of_issue"
        else dlookup d.confidence_scores "date_of_issue")
    ∧ ((extract_dates d text).date_of_expiry
      = if 3 ≤ (validDatesOf text).length then
          match (validDatesOf text).get? ((validDatesOf text).length - 1) with
          | some t => some (fmtDate t)
          | none => d.date_of_expiry
        else d.date_of_expiry)
    ∧ (dlookup (extract_dates d text).confidence_scores "date_of_expiry"
      = if 3 ≤ (validDatesOf text).length then
          match (validDatesOf text).get? ((validDatesOf text).length - 1) with
          | some _ => some (qOf 85 100)
          | none => dlookup d.confidence_scores "date_of_expiry"
        else dlookup d.confidence_scores "date_of_expiry") := by
  have hbi : ∀ (m : List (String × ℚ)) v,
      dlookup (dinsert m "date_of_issue" v) "date_of_birth"
        = dlookup m "date_of_birth" := fun m v =>
    dlookup_dinsert_ne m _ _ v (by decide)
  have hbe : ∀ (m : List (String × ℚ)) v,
      dlookup (dinsert m "date_of_expiry" v) "date_of_birth"
        = dlookup m "date_of_birth" := fun m v =>
    dlookup_dinsert_ne m _ _ v (by decide)
  have hib : ∀ (m : List (String × ℚ)) v,
      dlookup (dinsert m "date_of_birth" v) "date_of_issue"
        = dlookup m "date_of_issue" := fun m v =>
    dlookup_dinsert_ne m _ _ v (by decide)
  have hie : ∀ (m : List (String × ℚ)) v,
      dlookup (dinsert m "date_of_expiry" v) "date_of_issue"
        = dlookup m "date_of_issue" := fun m v =>
    dlookup_dinsert_ne m _ _ v (by decide)
  have heb : ∀ (m : List (String × ℚ)) v,
      dlookup (dinsert m "date_of_birth" v) "date_of_expiry"
        = dlookup m "date_of_expiry" := fun m v =>
    dlookup_dinsert_ne m _ _ v (by decide)
  have hei : ∀ (m : List (String × ℚ)) v,
      dlookup (dinsert m "date_of_issue" v) "date_of_expiry"
        = dlookup m "date_of_expiry" := fun m v =>
    dlookup_dinsert_ne m _ _ v (by decide)
  simp only [extract_dates]
  generalize validDatesOf text = vd
  refine ⟨?_, ?_, ?_, ?_, ?_, ?_⟩ <;>
    (repeat' split) <;>
    simp_all [dlookup_dinsert_self]
end IDV

namespace IDV

theorem sfe_dates (texts : List (String × String)) :
    ((smart_field_extraction texts).date_of_birth
      = ((validDatesOf (combinedOf texts)).get? 0).map fmtDate)
    ∧ (dlookup (smart_field_extraction texts).confidence_scores "date_of_birth"
      = ((validDatesOf (combinedOf texts)).get? 0).map (fun _ => qOf 85 100))
    ∧ ((smart_field_extraction texts).date_of_issue
      = if 2 ≤ (validDatesOf (combinedOf texts)).length then
          ((validDatesOf (combinedOf texts)).get?
            (if 3 ≤ (validDatesOf (combinedOf texts)).length then
              (validDatesOf (combinedOf texts)).length - 2 else 1)).map fmtDate
        else none)
    ∧ (dlookup (smart_field_extraction texts).confidence_scores "date_of_issue"
      = if 2 ≤ (validDatesOf (combinedOf texts)).length then
          ((validDatesOf (combinedOf texts)).get?
            (if 3 ≤ (validDatesOf (combinedOf texts)).length then
              (validDatesOf (combinedOf texts)).length - 2 else 1)).map
            (fun _ => qOf 8 10)
        else none)
    ∧ ((smart_field_extraction texts).date_of_expiry
      = if 3 ≤ (validDatesOf (combinedOf texts)).length then
          ((validDatesOf (combinedOf texts)).get?
            ((validDatesOf (combinedOf texts)).length - 1)).map fmtDate
        else none)
    ∧ (dlookup (smart_field_extraction texts).confidence_scores "date_of_expiry"
      = if 3 ≤ (validDatesOf (combinedOf texts)).length then
          ((validDatesOf (combinedOf texts)).get?
            ((validDatesOf (combinedOf texts)).length - 1)).map
            (fun _ => qOf 85 100)
        else none) := by
  have hd2b : (extract_national_id (extract_passport_number {} texts)
      (combinedOf texts)).date_of_birth = none := by rw [eni_dob, epn_dob]
  have hd2i : (extract_national_id (extract_passport_number {} texts)
      (combinedOf texts)).date_of_issue = none := by rw [eni_doi, epn_doi]
  have hd2e : (extract_national_id (extract_passport_number {} texts)
      (combinedOf texts)).date_of_expiry = none := by rw [eni_doe, epn_doe]
  have hc2b : dlookup (extract_national_id (extract_passport_number {} texts)
      (combinedOf texts)).confidence_scores "date_of_birth" = none := by
    rw [eni_conf _ _ _ (by decide), epn_conf _ _ _ (by decide)]; rfl
  have hc2i : dlookup (extract_national_id (extract_passport_number {} texts)
      (combinedOf texts)).confidence_scores "date_of_issue" = none := by
    rw [eni_conf _ _ _ (by decide), epn_conf _ _ _ (by decide)]; rfl
  have hc2e : dlookup (extract_national_id (extract_passport_number {} texts)
      (combinedOf texts)).confidence_scores "date_of_expiry" = none := by
    rw [eni_conf _ _ _ (by decide), epn_conf _ _ _ (by decide)]; rfl
  obtain ⟨h1, h2, h3, h4, h5, h6⟩ := extract_dates_char
    (extract_national_id (extract_passport_number {} texts) (combinedOf texts))
    (combinedOf texts)
  refine ⟨?_, ?_, ?_, ?_, ?_, ?_⟩
  · rw [sfe_unfold, enat_dob, eplace_dob, esex_dob, ename_dob, h1, hd2b]
    cases (validDatesOf (combinedOf texts)).get? 0 <;> rfl
  · rw [sfe_unfold, enat_conf _ _ _ (by decide), eplace_conf _ _ _ (by decide),
      esex_conf _ _ _ (by decide), ename_conf _ _ _ (by decide), h2, hc2b]
    cases (validDatesOf (combinedOf texts)).get? 0 <;> rfl
  · rw [sfe_unfold, enat_doi, eplace_doi, esex_doi, ename_doi, h3, hd2i]
    by_cases h2l : 2 ≤ (validDatesOf (combinedOf texts)).length
    · rw [if_pos h2l, if_pos h2l]
      cases hg : (validDatesOf (combinedOf texts)).get?
          (if 3 ≤ (validDatesOf (combinedOf texts)).length then
            (validDatesOf (combinedOf texts)).length - 2 else 1) <;> rfl
    · rw [if_neg h2l, if_neg h2l]
  · rw [sfe_unfold, enat_conf _ _ _ (by decide), eplace_conf _ _ _ (by decide),
      esex_conf _ _ _ (by decide), ename_conf _ _ _ (by decide), h4, hc2i]
    by_cases h2l : 2 ≤ (validDatesOf (combinedOf texts)).length
    · rw [if_pos h2l, if_pos h2l]
      cases hg : (validDatesOf (combinedOf texts)).get?
          (if 3 ≤ (validDatesOf (combinedOf texts)).length then
            (validDatesOf (combinedOf texts)).length - 2 else 1) <;> rfl
    · rw [if_neg h2l, if_neg h2l]
  · rw [sfe_unfold, enat_doe, eplace_doe, esex_doe, ename_doe, h5, hd2e]
    by_cases h3l : 3 ≤ (validDatesOf (combinedOf texts)).length
    · rw [if_pos h3l, if_pos h3l]
      cases hg : (validDatesOf (combinedOf texts)).get?
          ((validDatesOf (combinedOf texts)).length - 1) <;> rfl
    · rw [if_neg h3l, if_neg h3l]
  · rw [sfe_unfold, enat_conf _ _ _ (by decide), eplace_conf _ _ _ (by decide),
      esex_conf _ _ _ (by decide), ename_conf _ _ _ (by decide), h6, hc2e]
    by_cases h3l : 3 ≤ (validDatesOf (combinedOf texts)).length
    · rw [if_pos h3l, if_pos h3l]
      cases hg : (validDatesOf (combinedOf texts)).get?
          ((validDatesOf (combinedOf texts)).length - 1) <;> rfl
    · rw [if_neg h3l, if_neg h3l]

theorem sfe_full_name (texts : List (String × String)) :
    (match findPreferred (nameCandidatesOf texts) preferred_sources with
     | some cand =>
       (smart_field_extraction texts).full_name = some cand.1
       ∧ dlookup (smart_field_extraction texts).confidence_scores "full_name"
           = some (qOf 85 100)
     | none =>
       match pyMaxBy (fun c => c.1.length) (nameCandidatesOf texts) with
       | some cand =>
         (smart_field_extraction texts).full_name = some cand.1
         ∧ dlookup (smart_field_extraction texts).confidence_scores "full_name"
             = some (qOf 75 100)
       | none =>
         (smart_field_extraction texts).full_name = none
         ∧ dlookup (smart_field_extraction texts).confidence_scores "full_name"
             = none) := by
  have hfld : ∀ x, (smart_field_extraction texts).full_name = x ↔
      (extract_name (extract_dates (extract_national_id
        (extract_passport_number {} texts) (combinedOf texts)) (combinedOf texts))
        texts).full_name = x := by
    intro x
    rw [sfe_unfold, enat_fn, eplace_fn, esex_fn]
  have hcld : ∀ x, dlookup (smart_field_extraction texts).confidence_scores
      "full_name" = x ↔
      dlookup (extract_name (extract_dates (extract_national_id
        (extract_passport_number {} texts) (combinedOf texts)) (combinedOf texts))
        texts).confidence_scores "full_name" = x := by
    intro x
    rw [sfe_unfold, enat_conf _ _ _ (by decide), eplace_conf _ _ _ (by decide),
      esex_conf _ _ _ (by decide)]
  have hprev : dlookup (extract_dates (extract_national_id
      (extract_passport_number {} texts) (combinedOf texts))
        (combinedOf texts)).confidence_scores "full_name" = none := by
    rw [edates_conf _ _ _ (by decide) (by decide) (by decide),
      eni_conf _ _ _ (by decide), epn_conf _ _ _ (by decide)]
    rfl
  have hprevf : (extract_dates (extract_national_id
      (extract_passport_number {} texts) (combinedOf texts))
        (combinedOf texts)).full_name = none := by
    rw [edates_fn, eni_fn, epn_fn]
  cases hp : findPreferred (nameCandidatesOf texts) preferred_sources with
  | some cand =>
    refine ⟨(hfld _).2 ?_, (hcld _).2 ?_⟩
    · simp only [extract_name, hp]
    · simp only [extract_name, hp]
      exact dlookup_dinsert_self _ _ _
  | none =>
    cases hm : pyMaxBy (fun c => c.1.length) (nameCandidatesOf texts) with
    | some cand =>
      refine ⟨(hfld _).2 ?_, (hcld _).2 ?_⟩
      · simp only [extract_name, hp, hm]
      · simp only [extract_name, hp, hm]
        exact dlookup_dinsert_self _ _ _
    | none =>
      refine ⟨(hfld _).2 ?_, (hcld _).2 ?_⟩
      · simp only [extract_name, hp, hm]
        exact hprevf
      · simp only [extract_name, hp, hm]
        exact hprev

theorem sfe_sex (texts : List (String × String)) :
    (match sexFirstHit (combinedOf texts) sexPats with
     | some v =>
       ((smart_field_extraction texts).sex
         = match v with
           | [] => none
           | c :: _ => some (String.mk [c.toUpper]))
       ∧ dlookup (smart_field_extraction texts).confidence_scores "sex"
           = some (qOf 95 100)
     | none =>
       (smart_field_extraction texts).sex = none
       ∧ dlookup (smart_field_extraction texts).confidence_scores "sex" = none) := by
  have hprevf : (extract_name (extract_dates (extract_national_id
      (extract_passport_number {} texts) (combinedOf texts)) (combinedOf texts))
      texts).sex = none := by
    rw [ename_sex, edates_sex, eni_sex, epn_sex]
  have hprevc : dlookup (extract_name (extract_dates (extract_national_id
      (extract_passport_number {} texts) (combinedOf texts)) (combinedOf texts))
      texts).confidence_scores "sex" = none := by
    rw [ename_conf _ _ _ (by decide), edates_conf _ _ _ (by decide) (by decide)
      (by decide), eni_conf _ _ _ (by decide), epn_conf _ _ _ (by decide)]
    rfl
  cases hs : sexFirstHit (combinedOf texts) sexPats with
  | some v =>
    constructor
    · rw [sfe_unfold, enat_sex, eplace_sex]
      show (extract_sex _ _).sex = _
      unfold extract_sex
      rw [sex_go_eq, hs]
    · rw [sfe_unfold, enat_conf _ _ _ (by decide), eplace_conf _ _ _ (by decide)]
      show dlookup (extract_sex _ _).confidence_scores "sex" = _
      unfold extract_sex
      rw [sex_go_eq, hs]
      exact dlookup_dinsert_self _ _ _
  | none =>
    constructor
    · rw [sfe_unfold, enat_sex, eplace_sex]
      show (extract_sex _ _).sex = _
      unfold extract_sex
      rw [sex_go_eq, hs]
      exact hprevf
    · rw [sfe_unfold, enat_conf _ _ _ (by decide), eplace_conf _ _ _ (by decide)]
      show dlookup (extract_sex _ _).confidence_scores "sex" = _
      unfold extract_sex
      rw [sex_go_eq, hs]
      exact hprevc

theorem sfe_place (texts : List (String × String)) :
    (match placeFirst (toUpperStr (combinedOf texts)) sudan_places with
     | some pl =>
       (smart_field_extraction texts).place_of_birth = some pl
       ∧ dlookup (smart_field_extraction texts).confidence_scores "place_of_birth"
           = some (qOf 85 100)
     | none =>
       (smart_field_extraction texts).place_of_birth = none
       ∧ dlookup (smart_field_extraction texts).confidence_scores "place_of_birth"
           = none) := by
  have hprevf : (extract_sex (extract_name (extract_dates (extract_national_id
      (extract_passport_number {} texts) (combinedOf texts)) (combinedOf texts))
      texts) (combinedOf texts)).place_of_birth = none := by
    rw [esex_pob, ename_pob, edates_pob, eni_pob, epn_pob]
  have hprevc : dlookup (extract_sex (extract_name (extract_dates
      (extract_national_id (extract_passport_number {} texts) (combinedOf texts))
      (combinedOf texts)) texts) (combinedOf texts)).confidence_scores
      "place_of_birth" = none := by
    rw [esex_conf _ _ _ (by decide), ename_conf _ _ _ (by decide),
      edates_conf _ _ _ (by decide) (by decide) (by decide),
      eni_conf _ _ _ (by decide), epn_conf _ _ _ (by decide)]
    rfl
  cases hs : placeFirst (toUpperStr (combinedOf texts)) sudan_places with
  | some pl =>
    constructor
    · rw [sfe_unfold, enat_pob]
      show (extract_place_of_birth _ _).place_of_birth = _
      unfold extract_place_of_birth
      rw [place_go_eq, hs]
    · rw [sfe_unfold, enat_conf _ _ _ (by decide)]
      show dlookup (extract_place_of_birth _ _).confidence_scores "place_of_birth" = _
      unfold extract_place_of_birth
      rw [place_go_eq, hs]
      exact dlookup_dinsert_self _ _ _
  | none =>
    constructor
    · rw [sfe_unfold, enat_pob]
      show (extract_place_of_birth _ _).place_of_birth = _
      unfold extract_place_of_birth
      rw [place_go_eq, hs]
      exact hprevf
    · rw [sfe_unfold, enat_conf _ _ _ (by decide)]
      show dlookup (extract_place_of_birth _ _).confidence_scores "place_of_birth" = _
      unfold extract_place_of_birth
      rw [place_go_eq, hs]
      exact hprevc

theorem sfe_nationality (texts : List (String × String)) :
    (if sudan_indicators.any (fun ind =>
        containsSub (toUpperStr (combinedOf texts)) ind.data) then
      (smart_field_extraction texts).nationality = some "SUDANESE"
      ∧ (smart_field_extraction texts).country_code = some "SDN"
      ∧ (smart_field_extraction texts).passport_type = some "PC"
      ∧ dlookup (smart_field_extraction texts).confidence_scores "nationality"
          = some (qOf 95 100)
    else
      (smart_field_extraction texts).nationality = none
      ∧ (smart_field_extraction texts).country_code = none
      ∧ (smart_field_extraction texts).passport_type = none
      ∧ dlookup (smart_field_extraction texts).confidence_scores "nationality"
          = none) := by
  have hnat : (extract_place_of_birth (extract_sex (extract_name (extract_dates
      (extract_national_id (extract_passport_number {} texts) (combinedOf texts))
      (combinedOf texts)) texts) (combinedOf texts))
        (combinedOf texts)).nationality = none := by
    rw [eplace_nat, esex_nat, ename_nat, edates_nat, eni_nat, epn_nat]
  have hcc : (extract_place_of_birth (extract_sex (extract_name (extract_dates
      (extract_national_id (extract_passport_number {} texts) (combinedOf texts))
      (combinedOf texts)) texts) (combinedOf texts))
        (combinedOf texts)).country_code = none := by
    rw [eplace_cc, esex_cc, ename_cc, edates_cc, eni_cc, epn_cc]
  have hpt : (extract_place_of_birth (extract_sex (extract_name (extract_dates
      (extract_national_id (extract_passport_number {} texts) (combinedOf texts))
      (combinedOf texts)) texts) (combinedOf texts))
        (combinedOf texts)).passport_type = none := by
    rw [eplace_pt, esex_pt, ename_pt, edates_pt, eni_pt, epn_pt]
  have hcn : dlookup (extract_place_of_birth (extract_sex (extract_name
      (extract_dates (extract_national_id (extract_passport_number {} texts)
      (combinedOf texts)) (combinedOf texts)) texts) (combinedOf texts))
      (combinedOf texts)).confidence_scores "nationality" = none := by
    rw [eplace_conf _ _ _ (by decide), esex_conf _ _ _ (by decide),
      ename_conf _ _ _ (by decide),
      edates_conf _ _ _ (by decide) (by decide) (by decide),
      eni_conf _ _ _ (by decide), epn_conf _ _ _ (by decide)]
    rfl
  by_cases hcond : (sudan_indicators.any fun ind =>
      containsSub (toUpperStr (combinedOf texts)) ind.data) = true
  · rw [if_pos hcond]
    refine ⟨?_, ?_, ?_, ?_⟩ <;>
      · rw [sfe_unfold]
        simp only [extract_nationality]
        rw [if_pos hcond]
        all_goals exact dlookup_dinsert_self _ _ _
  · rw [if_neg hcond]
    refine ⟨?_, ?_, ?_, ?_⟩ <;>
      · rw [sfe_unfold]
        simp only [extract_nationality]
        rw [if_neg hcond]
        all_goals first
          | exact hnat
          | exact hcc
          | exact hpt
          | exact hcn

end IDV

namespace IDV

/-! ### Supporting facts -/

theorem hasKey_eq_isSome (m : List (String × α)) (k : String) :
    hasKey m k = (dlookup m k).isSome := by
  induction m with
  | nil => rfl
  | cons p rest ih =>
    simp only [hasKey, dlookup, List.any_cons, List.find?]
    cases hp : (p.1 == k) with
    | true => rfl
    | false => simpa [hasKey, dlookup] using ih

theorem parseValidDate_ok (s : Str) (t : PDate) (h : parseValidDate s = some t) :
    dateOK t := by
  unfold parseValidDate at h
  split at h
  · split at h
    · split at h
      · next hok => cases h; exact hok
      · cases h
    all_goals cases h
  · cases h

theorem validDatesOf_mem (text : Str) (t : PDate) (h : t ∈ validDatesOf text) :
    dateOK t := by
  unfold validDatesOf at h
  rw [(List.perm_insertionSort dateLe _).mem_iff, List.mem_dedup] at h
  obtain ⟨s, _, hs⟩ := List.mem_filterMap.mp h
  exact parseValidDate_ok s t hs

theorem validDatesOf_sorted (text : Str) :
    (validDatesOf text).Sorted dateLe :=
  List.sorted_insertionSort dateLe _

theorem validDatesOf_rel_of_le (text : Str) {i j : ℕ} {a b : PDate}
    (hij : i ≤ j)
    (ha : (validDatesOf text).get? i = some a)
    (hb : (validDatesOf text).get? j = some b) : dateLe a b := by
  obtain ⟨hi, hga⟩ := List.get?_eq_some.mp ha
  obtain ⟨hj, hgb⟩ := List.get?_eq_some.mp hb
  rw [← hga, ← hgb]
  exact (validDatesOf_sorted text).rel_get_of_le (by exact hij)

theorem validPassport_shape (v : Str) (hv : validPassport v = true)
    (hnl : v.getLast? ≠ some '\n') : passportShape v = true := by
  unfold validPassport withTrailingNL at hv
  rcases Bool.or_eq_true_iff.mp hv with h | h
  · exact h
  · exact absurd (by simpa using (Bool.and_eq_true_iff.mp h).1) hnl

theorem validPassport_ne_nil (v : Str) (hv : validPassport v = true) : v ≠ [] := by
  intro he
  subst he
  simp [validPassport, withTrailingNL, passportShape] at hv

theorem validNatId_ne_nil (v : Str) (hv : validNatId v = true) : v ≠ [] := by
  intro he
  subst he
  simp [validNatId, withTrailingNL, natIdShape] at hv

theorem fmtDate_ne_empty (t : PDate) : fmtDate t ≠ "" := by
  intro h
  have hlen := congrArg String.length h
  rw [fmtDate, String.length_append, String.length_append, String.length_append,
    String.length_append] at hlen
  have h1 : ("-" : String).length = 1 := rfl
  have h0 : ("" : String).length = 0 := rfl
  simp only [h1, h0] at hlen
  omega

theorem mk_isEmpty_false_of_ne_nil (v : Str) (h : v ≠ []) :
    (String.mk v).isEmpty = false := by
  rw [Bool.eq_false_iff]
  intro hh
  exact h (congrArg String.data ((String.isEmpty_iff (String.mk v)).mp hh))

theorem isEmpty_false_of_ne (s : String) (h : s ≠ "") : s.isEmpty = false := by
  rw [Bool.eq_false_iff]
  intro hh
  exact h ((String.isEmpty_iff s).mp hh)

theorem nameCandidatesOf_length (texts : List (String × String))
    (c : String × String) (h : c ∈ nameCandidatesOf texts) :
    10 ≤ c.1.length ∧ c.1.length ≤ 60 := by
  unfold nameCandidatesOf at h
  obtain ⟨st, _, hst⟩ := List.mem_flatMap.mp h
  obtain ⟨v, _, hv⟩ := List.mem_filterMap.mp hst
  dsimp only at hv
  split at hv
  · next hcnd =>
    cases hv
    have := (Bool.and_eq_true_iff.mp hcnd).2
    obtain ⟨h10, h60⟩ := Bool.and_eq_true_iff.mp this
    constructor
    · simpa [String.length] using of_decide_eq_true h10
    · simpa [String.length] using of_decide_eq_true h60
  · cases hv

theorem findPreferred_mem (cands : List (String × String))
    (srcs : List String) (c : String × String)
    (h : findPreferred cands srcs = some c) : c ∈ cands := by
  induction srcs with
  | nil => cases h
  | cons src rest ih =>
    unfold findPreferred at h
    cases hf : cands.find? (fun cd => containsSub cd.2.data src.data) with
    | some cd =>
      rw [hf] at h
      cases h
      exact List.mem_of_find?_eq_some hf
    | none =>
      rw [hf] at h
      exact ih h

theorem foldl_pick_mem (f : α → ℕ) : ∀ (t : List α) (a : α),
    t.foldl (fun best y => if f best < f y then y else best) a ∈ a :: t := by
  intro t
  induction t with
  | nil => intro a; simp
  | cons b t ih =>
    intro a
    simp only [List.foldl_cons]
    rcases List.mem_cons.mp (ih (if f a < f b then b else a)) with hm | hm
    · rw [hm]
      split
      · exact List.mem_cons_of_mem _ (List.mem_cons_self _ _)
      · exact List.mem_cons_self _ _
    · exact List.mem_cons_of_mem _ (List.mem_cons_of_mem _ hm)

theorem pyMaxBy_mem (f : α → ℕ) (l : List α) (x : α)
    (h : pyMaxBy f l = some x) : x ∈ l := by
  cases l with
  | nil => cases h
  | cons a rest =>
    unfold pyMaxBy at h
    cases h
    exact foldl_pick_mem f rest a

end IDV

namespace IDV

/-! ### Stored field values are nonempty strings -/

theorem mk_ne_empty (v : Str) (h : v ≠ []) : String.mk v ≠ "" :=
  fun he => h (congrArg String.data he)

theorem sfe_pn_ne (texts : List (String × String)) :
    ∀ s, (smart_field_extraction texts).passport_number = some s → s ≠ "" := by
  intro s hs
  rw [(sfe_passport_number texts).1] at hs
  cases hfv : firstValidPassport texts with
  | none => rw [hfv] at hs; cases hs
  | some w =>
    rw [hfv] at hs
    cases hs
    exact mk_ne_empty w (validPassport_ne_nil w (List.find?_some hfv))

theorem sfe_nid_ne (texts : List (String × String)) :
    ∀ s, (smart_field_extraction texts).national_id = some s → s ≠ "" := by
  intro s hs
  rw [(sfe_national_id texts).1] at hs
  cases hfv : natIdScan (combinedOf texts) with
  | none => rw [hfv] at hs; cases hs
  | some w =>
    rw [hfv] at hs
    cases hs
    exact mk_ne_empty w (validNatId_ne_nil w (List.find?_some hfv))

theorem sfe_fn_ne (texts : List (String × String)) :
    ∀ s, (smart_field_extraction texts).full_name = some s → s ≠ "" := by
  intro s hs
  have hname := sfe_full_name texts
  cases hp : findPreferred (nameCandidatesOf texts) preferred_sources with
  | some cand =>
    rw [hp] at hname
    rw [hname.1] at hs
    cases hs
    have := (nameCandidatesOf_length texts cand
      (findPreferred_mem _ _ _ hp)).1
    intro he
    rw [he] at this
    simp [String.length] at this
  | none =>
    rw [hp] at hname
    cases hm : pyMaxBy (fun c => c.1.length) (nameCandidatesOf texts) with
    | some cand =>
      rw [hm] at hname
      rw [hname.1] at hs
      cases hs
      have := (nameCandidatesOf_length texts cand (pyMaxBy_mem _ _ _ hm)).1
      intro he
      rw [he] at this
      simp [String.length] at this
    | none =>
      rw [hm] at hname
      rw [hname.1] at hs
      cases hs

theorem sfe_nat_ne (texts : List (String × String)) :
    ∀ s, (smart_field_extraction texts).nationality = some s → s ≠ "" := by
  intro s hs
  have hnat := sfe_nationality texts
  split at hnat
  · rw [hnat.1] at hs; cases hs; decide
  · rw [hnat.1] at hs; cases hs

theorem sfe_dob_ne (texts : List (String × String)) :
    ∀ s, (smart_field_extraction texts).date_of_birth = some s → s ≠ "" := by
  intro s hs
  rw [(sfe_dates texts).1] at hs
  cases hg : (validDatesOf (combinedOf texts)).get? 0 with
  | none => rw [hg] at hs; cases hs
  | some t => rw [hg] at hs; cases hs; exact fmtDate_ne_empty t

theorem sfe_doi_ne (texts : List (String × String)) :
    ∀ s, (smart_field_extraction texts).date_of_issue = some s → s ≠ "" := by
  intro s hs
  rw [(sfe_dates texts).2.2.1] at hs
  split at hs
  · cases hg : (validDatesOf (combinedOf texts)).get?
        (if 3 ≤ (validDatesOf (combinedOf texts)).length then
          (validDatesOf (combinedOf texts)).length - 2 else 1) with
    | none => rw [hg] at hs; cases hs
    | some t => rw [hg] at hs; cases hs; exact fmtDate_ne_empty t
  · cases hs

theorem sfe_doe_ne (texts : List (String × String)) :
    ∀ s, (smart_field_extraction texts).date_of_expiry = some s → s ≠ "" := by
  intro s hs
  rw [(sfe_dates texts).2.2.2.2.1] at hs
  split at hs
  · cases hg : (validDatesOf (combinedOf texts)).get?
        ((validDatesOf (combinedOf texts)).length - 1) with
    | none => rw [hg] at hs; cases hs
    | some t => rw [hg] at hs; cases hs; exact fmtDate_ne_empty t
  · cases hs

theorem sfe_sex_ne (texts : List (String × String)) :
    ∀ s, (smart_field_extraction texts).sex = some s → s ≠ "" := by
  intro s hs
  have hsex := sfe_sex texts
  cases hh : sexFirstHit (combinedOf texts) sexPats with
  | none => rw [hh] at hsex; rw [hsex.1] at hs; cases hs
  | some v =>
    rw [hh] at hsex
    rw [hsex.1] at hs
    cases v with
    | nil => cases hs
    | cons c rest => cases hs; exact mk_ne_empty _ (by simp)

theorem truthy_eq_isSome_of_ne (o : Option String)
    (h : ∀ s, o = some s → s ≠ "") : truthy o = o.isSome := by
  cases o with
  | none => rfl
  | some s =>
    simp only [truthy, Option.isSome_some]
    rw [isEmpty_false_of_ne s (h s rfl)]
    rfl

end IDV

namespace IDV

/-- C9: for every observation bag, the extraction score of the returned
result is `100 * k / 8` where `k` is the number of non-absent fields
among the 8 important fields (passport number, full name, nationality,
the three dates, national id, sex); in particular it is never negative
and never exceeds 100. -/
theorem extraction_score_formula (texts : List (String × String)) :
    (extract texts).extraction_score
      = 100 * (((importantFields (extract texts).toExtractionData).countP
          (fun o => o.isSome) : ℚ)) / 8
    ∧ 0 ≤ (extract texts).extraction_score
    ∧ (extract texts).extraction_score ≤ 100 := by
  have hx : (extract texts).toExtractionData = smart_field_extraction texts := rfl
  have hs : (extract texts).extraction_score
      = calculate_score (smart_field_extraction texts) := rfl
  have hcount : (importantFields (smart_field_extraction texts)).countP truthy
      = (importantFields (smart_field_extraction texts)).countP
          (fun o => o.isSome) := by
    apply List.countP_congr
    intro o ho
    simp only [importantFields, List.mem_cons, List.not_mem_nil, or_false] at ho
    rcases ho with h | h | h | h | h | h | h | h <;> subst h
    · exact (truthy_eq_isSome_of_ne _ (sfe_pn_ne texts)) ▸ Iff.rfl
    · exact (truthy_eq_isSome_of_ne _ (sfe_fn_ne texts)) ▸ Iff.rfl
    · exact (truthy_eq_isSome_of_ne _ (sfe_nat_ne texts)) ▸ Iff.rfl
    · exact (truthy_eq_isSome_of_ne _ (sfe_dob_ne texts)) ▸ Iff.rfl
    · exact (truthy_eq_isSome_of_ne _ (sfe_doi_ne texts)) ▸ Iff.rfl
    · exact (truthy_eq_isSome_of_ne _ (sfe_doe_ne texts)) ▸ Iff.rfl
    · exact (truthy_eq_isSome_of_ne _ (sfe_nid_ne texts)) ▸ Iff.rfl
    · exact (truthy_eq_isSome_of_ne _ (sfe_sex_ne texts)) ▸ Iff.rfl
  have hk8 : ((importantFields (smart_field_extraction texts)).countP truthy : ℚ)
      ≤ 8 := by
    have hle := List.countP_le_length (p := truthy)
      (l := importantFields (smart_field_extraction texts))
    have hlen : (importantFields (smart_field_extraction texts)).length = 8 := rfl
    rw [hlen] at hle
    exact_mod_cast hle
  refine ⟨?_, ?_, ?_⟩
  · rw [hs, calculate_score_eq, hx, hcount]
    ring
  · rw [hs, calculate_score_eq]
    positivity
  · rw [hs, calculate_score_eq]
    have h0 : (0 : ℚ) ≤ ((importantFields (smart_field_extraction texts)).countP
        truthy : ℚ) := by positivity
    linarith

end IDV

namespace IDV

/-- C3 (amended): every non-absent directly-extracted field (passport
number, national id, the three dates, full name, sex, place of birth,
nationality) has a corresponding entry in the confidence map;
`country_code` and `passport_type`, which are set as a correlated side
effect of nationality, get no entry of their own - their presence is
witnessed only by the nationality entry. -/
theorem set_fields_have_confidence_entries (texts : List (String × String)) :
    ((extract texts).passport_number ≠ none →
      hasKey (extract texts).confidence_scores "passport_number" = true)
    ∧ ((extract texts).national_id ≠ none →
      hasKey (extract texts).confidence_scores "national_id" = true)
    ∧ ((extract texts).date_of_birth ≠ none →
      hasKey (extract texts).confidence_scores "date_of_birth" = true)
    ∧ ((extract texts).date_of_issue ≠ none →
      hasKey (extract texts).confidence_scores "date_of_issue" = true)
    ∧ ((extract texts).date_of_expiry ≠ none →
      hasKey (extract texts).confidence_scores "date_of_expiry" = true)
    ∧ ((extract texts).full_name ≠ none →
      hasKey (extract texts).confidence_scores "full_name" = true)
    ∧ ((extract texts).sex ≠ none →
      hasKey (extract texts).confidence_scores "sex" = true)
    ∧ ((extract texts).place_of_birth ≠ none →
      hasKey (extract texts).confidence_scores "place_of_birth" = true)
    ∧ ((extract texts).nationality ≠ none →
      hasKey (extract texts).confidence_scores "nationality" = true)
    ∧ ((extract texts).country_code ≠ none →
      hasKey (extract texts).confidence_scores "nationality" = true)
    ∧ ((extract texts).passport_type ≠ none →
      hasKey (extract texts).confidence_scores "nationality" = true) := by
  have hnatkey : (smart_field_extraction texts).nationality ≠ none ∨
      (smart_field_extraction texts).country_code ≠ none ∨
      (smart_field_extraction texts).passport_type ≠ none →
      hasKey (smart_field_extraction texts).confidence_scores "nationality"
        = true := by
    intro hne
    have hc := sfe_nationality texts
    rw [hasKey_eq_isSome]
    split at hc
    · rw [hc.2.2.2]; rfl
    · exfalso
      rcases hne with h | h | h
      · exact h hc.1
      · exact h hc.2.1
      · exact h hc.2.2.1
  refine ⟨?_, ?_, ?_, ?_, ?_, ?_, ?_, ?_,
    fun h => hnatkey (Or.inl h), fun h => hnatkey (Or.inr (Or.inl h)),
    fun h => hnatkey (Or.inr (Or.inr h))⟩
  · intro hne
    show hasKey (smart_field_extraction texts).confidence_scores
      "passport_number" = true
    rw [hasKey_eq_isSome, (sfe_passport_number texts).2]
    replace hne : (smart_field_extraction texts).passport_number ≠ none := hne
    rw [(sfe_passport_number texts).1] at hne
    cases hfv : firstValidPassport texts with
    | none => rw [hfv] at hne; exact absurd rfl hne
    | some w => rfl
  · intro hne
    show hasKey (smart_field_extraction texts).confidence_scores
      "national_id" = true
    rw [hasKey_eq_isSome, (sfe_national_id texts).2]
    replace hne : (smart_field_extraction texts).national_id ≠ none := hne
    rw [(sfe_national_id texts).1] at hne
    cases hfv : natIdScan (combinedOf texts) with
    | none => rw [hfv] at hne; exact absurd rfl hne
    | some w => rfl
  · intro hne
    show hasKey (smart_field_extraction texts).confidence_scores
      "date_of_birth" = true
    rw [hasKey_eq_isSome, (sfe_dates texts).2.1]
    replace hne : (smart_field_extraction texts).date_of_birth ≠ none := hne
    rw [(sfe_dates texts).1] at hne
    cases hg : (validDatesOf (combinedOf texts)).get? 0 with
    | none => rw [hg] at hne; exact absurd rfl hne
    | some t => rfl
  · intro hne
    show hasKey (smart_field_extraction texts).confidence_scores
      "date_of_issue" = true
    rw [hasKey_eq_isSome, (sfe_dates texts).2.2.2.1]
    replace hne : (smart_field_extraction texts).date_of_issue ≠ none := hne
    rw [(sfe_dates texts).2.2.1] at hne
    by_cases h2l : 2 ≤ (validDatesOf (combinedOf texts)).length
    · rw [if_pos h2l] at hne ⊢
      cases hg : (validDatesOf (combinedOf texts)).get?
          (if 3 ≤ (validDatesOf (combinedOf texts)).length then
            (validDatesOf (combinedOf texts)).length - 2 else 1) with
      | none => rw [hg] at hne; exact absurd rfl hne
      | some t => rfl
    · rw [if_neg h2l] at hne; exact absurd rfl hne
  · intro hne
    show hasKey (smart_field_extraction texts).confidence_scores
      "date_of_expiry" = true
    rw [hasKey_eq_isSome, (sfe_dates texts).2.2.2.2.2]
    replace hne : (smart_field_extraction texts).date_of_expiry ≠ none := hne
    rw [(sfe_dates texts).2.2.2.2.1] at hne
    by_cases h3l : 3 ≤ (validDatesOf (combinedOf texts)).length
    · rw [if_pos h3l] at hne ⊢
      cases hg : (validDatesOf (combinedOf texts)).get?
          ((validDatesOf (combinedOf texts)).length - 1) with
      | none => rw [hg] at hne; exact absurd rfl hne
      | some t => rfl
    · rw [if_neg h3l] at hne; exact absurd rfl hne
  · intro hne
    show hasKey (smart_field_extraction texts).confidence_scores
      "full_name" = true
    rw [hasKey_eq_isSome]
    replace hne : (smart_field_extraction texts).full_name ≠ none := hne
    have hc := sfe_full_name texts
    cases hp : findPreferred (nameCandidatesOf texts) preferred_sources with
    | some cand => rw [hp] at hc; rw [hc.2]; rfl
    | none =>
      rw [hp] at hc
      cases hm : pyMaxBy (fun c => c.1.length) (nameCandidatesOf texts) with
      | some cand => rw [hm] at hc; rw [hc.2]; rfl
      | none => rw [hm] at hc; exact absurd hc.1 hne
  · intro hne
    show hasKey (smart_field_extraction texts).confidence_scores "sex" = true
    rw [hasKey_eq_isSome]
    replace hne : (smart_field_extraction texts).sex ≠ none := hne
    have hc := sfe_sex texts
    cases hh : sexFirstHit (combinedOf texts) sexPats with
    | some v => rw [hh] at hc; rw [hc.2]; rfl
    | none => rw [hh] at hc; exact absurd hc.1 hne
  · intro hne
    show hasKey (smart_field_extraction texts).confidence_scores
      "place_of_birth" = true
    rw [hasKey_eq_isSome]
    replace hne : (smart_field_extraction texts).place_of_birth ≠ none := hne
    have hc := sfe_place texts
    cases hh : placeFirst (toUpperStr (combinedOf texts)) sudan_places with
    | some pl => rw [hh] at hc; rw [hc.2]; rfl
    | none => rw [hh] at hc; exact absurd hc.1 hne

end IDV

namespace IDV

set_option maxRecDepth 2000000 in
/-- C3 is refuted as stated: on an observation bag reading "SUDAN" the
extractor stores `country_code` and `passport_type` (side effects of
nationality) but the confidence map has no entry under either key. -/
theorem country_code_without_confidence_entry :
    (extract [("standard", "SUDAN")]).country_code = some "SDN"
    ∧ (extract [("standard", "SUDAN")]).passport_type = some "PC"
    ∧ hasKey (extract [("standard", "SUDAN")]).confidence_scores "country_code"
        = false
    ∧ hasKey (extract [("standard", "SUDAN")]).confidence_scores "passport_type"
        = false := by
  refine ⟨by decide, by decide, by decide, by decide⟩

set_option maxRecDepth 2000000 in
theorem set_fields_have_confidence_entries_witness :
    hasKey (extract [("standard", "SUDAN")]).confidence_scores "nationality"
      = true :=
  (set_fields_have_confidence_entries
    [("standard", "SUDAN")]).2.2.2.2.2.2.2.2.2.1 (by decide)

end IDV

namespace IDV

/-- C6: whenever `extract` sets `passport_number`, the stored value is
the cleaned form of the first candidate (observations in order, patterns
in order, matches left to right) passing the `P`-plus-8-or-9-digits
validation, its confidence entry is exactly 0.95, the scan stops at that
first hit (the stored value is determined by the first valid candidate,
with no cross-source voting), and when no candidate validates the field
stays absent.  The hypothesis records that no scanned candidate ends in
a newline (true of the pattern layer, whose matches end in digits or
alphanumerics), which rules out the trailing-newline corner of Python's
`$`. -/
theorem passport_number_first_valid (texts : List (String × String))
    (hnl : ∀ c ∈ passportCandidatesFlat texts, c.getLast? ≠ some '\n') :
    ((extract texts).passport_number
        = (firstValidPassport texts).map (fun v => String.mk v))
    ∧ (∀ v, (extract texts).passport_number = some v →
        passportShape v.data = true
        ∧ dlookup (extract texts).confidence_scores "passport_number"
            = some (qOf 95 100))
    ∧ ((∀ c ∈ passportCandidatesFlat texts, validPassport c = false) →
        (extract texts).passport_number = none) := by
  refine ⟨(sfe_passport_number texts).1, ?_, ?_⟩
  · intro v hv
    replace hv : (smart_field_extraction texts).passport_number = some v := hv
    rw [(sfe_passport_number texts).1] at hv
    cases hfv : firstValidPassport texts with
    | none => rw [hfv] at hv; cases hv
    | some w =>
      rw [hfv] at hv
      cases hv
      have hvalid : validPassport w = true := List.find?_some hfv
      have hmem : w ∈ passportCandidatesFlat texts :=
        List.mem_of_find?_eq_some hfv
      constructor
      · show passportShape w = true
        exact validPassport_shape w hvalid (hnl w hmem)
      · show dlookup (smart_field_extraction texts).confidence_scores
          "passport_number" = some (qOf 95 100)
        rw [(sfe_passport_number texts).2, hfv]
        rfl
  · intro hall
    show (smart_field_extraction texts).passport_number = none
    rw [(sfe_passport_number texts).1]
    have hnone : firstValidPassport texts = none := by
      unfold firstValidPassport
      rw [List.find?_eq_none]
      intro x hx
      simp [hall x hx]
    rw [hnone]
    rfl

set_option maxRecDepth 2000000 in
theorem passport_number_first_valid_witness :
    passportShape ("P12345678" : String).data = true
    ∧ dlookup (extract [("standard", "P12345678")]).confidence_scores
        "passport_number" = some (qOf 95 100) :=
  (passport_number_first_valid [("standard", "P12345678")]
    (by decide)).2.1 "P12345678" (by decide)

set_option maxRecDepth 2000000 in
/-- C7 is refuted as stated: on the text "N/A" the first sex pattern
(the isolated-token class, which includes the slash) matches the lone
slash, and the extractor stores sex = "/" - not the letter M or F -
with confidence 0.95. -/
theorem sex_field_slash_counterexample :
    (extract [("standard", "N/A")]).sex = some "/"
    ∧ dlookup (extract [("standard", "N/A")]).confidence_scores "sex"
        = some (qOf 95 100) :=
  ⟨by decide, by decide⟩

/-- C7 (amended): whenever the Field Resolver sets the sex field, the
stored value is a single character - the uppercased first character of
the first regex hit over the sex patterns (the letter M or F for the
labeled patterns, but possibly a slash or an Arabic initial for the
isolated-token and Arabic-word patterns) - and the confidence entry is
exactly 0.95. -/
theorem sex_single_char_conf (texts : List (String × String)) :
    ∀ v, (extract texts).sex = some v →
      v.length = 1
      ∧ (∃ raw c rest, sexFirstHit (combinedOf texts) sexPats = some raw
          ∧ raw = c :: rest ∧ v = String.mk [c.toUpper])
      ∧ dlookup (extract texts).confidence_scores "sex" = some (qOf 95 100) := by
  intro v hv
  replace hv : (smart_field_extraction texts).sex = some v := hv
  have hc := sfe_sex texts
  cases hh : sexFirstHit (combinedOf texts) sexPats with
  | none => rw [hh] at hc; rw [hc.1] at hv; cases hv
  | some raw =>
    rw [hh] at hc
    cases raw with
    | nil => rw [hc.1] at hv; cases hv
    | cons c rest =>
      rw [hc.1] at hv
      cases hv
      exact ⟨rfl, ⟨c :: rest, c, rest, rfl, rfl, rfl⟩, hc.2⟩

set_option maxRecDepth 2000000 in
theorem sex_single_char_conf_witness :
    ("M" : String).length = 1
    ∧ (∃ raw c rest,
        sexFirstHit (combinedOf [("standard", "Sex: M")]) sexPats = some raw
        ∧ raw = c :: rest ∧ ("M" : String) = String.mk [c.toUpper])
    ∧ dlookup (extract [("standard", "Sex: M")]).confidence_scores "sex"
        = some (qOf 95 100) :=
  sex_single_char_conf [("standard", "Sex: M")] "M" (by decide)

end IDV

namespace IDV

/-- C5: every date the Field Resolver assigns is a validated triple
(day 1-31, month 1-12, year 1900-2100) formatted `dd-mm-yyyy`; the
assignment is positional over the deduplicated chronologically sorted
valid dates - earliest to `date_of_birth` (confidence 0.85), with at
least two the second-to-last (the second if exactly two) to
`date_of_issue` (confidence 0.8), with at least three the latest to
`date_of_expiry` (confidence 0.85) - so the assigned dates are
chronologically ordered whenever issue (and expiry) are present. -/
theorem dates_validated_and_ordered (texts : List (String × String)) :
    ((extract texts).date_of_birth
      = ((validDatesOf (combinedOf texts)).get? 0).map fmtDate)
    ∧ ((extract texts).date_of_issue
      = if 2 ≤ (validDatesOf (combinedOf texts)).length then
          ((validDatesOf (combinedOf texts)).get?
            (if 3 ≤ (validDatesOf (combinedOf texts)).length then
              (validDatesOf (combinedOf texts)).length - 2 else 1)).map fmtDate
        else none)
    ∧ ((extract texts).date_of_expiry
      = if 3 ≤ (validDatesOf (combinedOf texts)).length then
          ((validDatesOf (combinedOf texts)).get?
            ((validDatesOf (combinedOf texts)).length - 1)).map fmtDate
        else none)
    ∧ (∀ s, (extract texts).date_of_birth = some s →
        (∃ t, dateOK t ∧ s = fmtDate t)
        ∧ dlookup (extract texts).confidence_scores "date_of_birth"
            = some (qOf 85 100))
    ∧ (∀ s, (extract texts).date_of_issue = some s →
        (∃ t, dateOK t ∧ s = fmtDate t)
        ∧ dlookup (extract texts).confidence_scores "date_of_issue"
            = some (qOf 8 10))
    ∧ (∀ s, (extract texts).date_of_expiry = some s →
        (∃ t, dateOK t ∧ s = fmtDate t)
        ∧ dlookup (extract texts).confidence_scores "date_of_expiry"
            = some (qOf 85 100))
    ∧ (∀ s1 s2, (extract texts).date_of_birth = some s1 →
        (extract texts).date_of_issue = some s2 →
        ∃ t1 t2, s1 = fmtDate t1 ∧ s2 = fmtDate t2 ∧ dateLe t1 t2)
    ∧ (∀ s1 s2 s3, (extract texts).date_of_birth = some s1 →
        (extract texts).date_of_issue = some s2 →
        (extract texts).date_of_expiry = some s3 →
        ∃ t1 t2 t3, s1 = fmtDate t1 ∧ s2 = fmtDate t2 ∧ s3 = fmtDate t3
          ∧ dateLe t1 t2 ∧ dateLe t2 t3) := by
  have hD := sfe_dates texts
  have hdob : ∀ s, (smart_field_extraction texts).date_of_birth = some s →
      ∃ t, (validDatesOf (combinedOf texts)).get? 0 = some t ∧ s = fmtDate t := by
    intro s hs
    rw [hD.1] at hs
    cases hg : (validDatesOf (combinedOf texts)).get? 0 with
    | none => rw [hg] at hs; cases hs
    | some t => rw [hg] at hs; cases hs; exact ⟨t, rfl, rfl⟩
  have hdoi : ∀ s, (smart_field_extraction texts).date_of_issue = some s →
      ∃ t, 2 ≤ (validDatesOf (combinedOf texts)).length
        ∧ (validDatesOf (combinedOf texts)).get?
            (if 3 ≤ (validDatesOf (combinedOf texts)).length then
              (validDatesOf (combinedOf texts)).length - 2 else 1) = some t
        ∧ s = fmtDate t := by
    intro s hs
    rw [hD.2.2.1] at hs
    by_cases h2l : 2 ≤ (validDatesOf (combinedOf texts)).length
    · rw [if_pos h2l] at hs
      cases hg : (validDatesOf (combinedOf texts)).get?
          (if 3 ≤ (validDatesOf (combinedOf texts)).length then
            (validDatesOf (combinedOf texts)).length - 2 else 1) with
      | none => rw [hg] at hs; cases hs
      | some t => rw [hg] at hs; cases hs; exact ⟨t, h2l, rfl, rfl⟩
    · rw [if_neg h2l] at hs; cases hs
  have hdoe : ∀ s, (smart_field_extraction texts).date_of_expiry = some s →
      ∃ t, 3 ≤ (validDatesOf (combinedOf texts)).length
        ∧ (validDatesOf (combinedOf texts)).get?
            ((validDatesOf (combinedOf texts)).length - 1) = some t
        ∧ s = fmtDate t := by
    intro s hs
    rw [hD.2.2.2.2.1] at hs
    by_cases h3l : 3 ≤ (validDatesOf (combinedOf texts)).length
    · rw [if_pos h3l] at hs
      cases hg : (validDatesOf (combinedOf texts)).get?
          ((validDatesOf (combinedOf texts)).length - 1) with
      | none => rw [hg] at hs; cases hs
      | some t => rw [hg] at hs; cases hs; exact ⟨t, h3l, rfl, rfl⟩
    · rw [if_neg h3l] at hs; cases hs
  refine ⟨hD.1, hD.2.2.1, hD.2.2.2.2.1, ?_, ?_, ?_, ?_, ?_⟩
  · intro s hs
    obtain ⟨t, hg, rfl⟩ := hdob s hs
    refine ⟨⟨t, validDatesOf_mem _ t (List.get?_mem hg), rfl⟩, ?_⟩
    show dlookup (smart_field_extraction texts).confidence_scores
      "date_of_birth" = some (qOf 85 100)
    rw [hD.2.1]
    cases hg2 : (validDatesOf (combinedOf texts)).get? 0 with
    | none => rw [hg2] at hg; cases hg
    | some t2 => rfl
  · intro s hs
    obtain ⟨t, h2l, hg, rfl⟩ := hdoi s hs
    refine ⟨⟨t, validDatesOf_mem _ t (List.get?_mem hg), rfl⟩, ?_⟩
    show dlookup (smart_field_extraction texts).confidence_scores
      "date_of_issue" = some (qOf 8 10)
    rw [hD.2.2.2.1, if_pos h2l]
    cases hg2 : (validDatesOf (combinedOf texts)).get?
        (if 3 ≤ (validDatesOf (combinedOf texts)).length then
          (validDatesOf (combinedOf texts)).length - 2 else 1) with
    | none => rw [hg2] at hg; cases hg
    | some t2 => rfl
  · intro s hs
    obtain ⟨t, h3l, hg, rfl⟩ := hdoe s hs
    refine ⟨⟨t, validDatesOf_mem _ t (List.get?_mem hg), rfl⟩, ?_⟩
    show dlookup (smart_field_extraction texts).confidence_scores
      "date_of_expiry" = some (qOf 85 100)
    rw [hD.2.2.2.2.2, if_pos h3l]
    cases hg2 : (validDatesOf (combinedOf texts)).get?
        ((validDatesOf (combinedOf texts)).length - 1) with
    | none => rw [hg2] at hg; cases hg
    | some t2 => rfl
  · intro s1 s2 h1 h2
    obtain ⟨t1, hg1, rfl⟩ := hdob s1 h1
    obtain ⟨t2, h2l, hg2, rfl⟩ := hdoi s2 h2
    exact ⟨t1, t2, rfl, rfl,
      validDatesOf_rel_of_le (combinedOf texts) (Nat.zero_le _) hg1 hg2⟩
  · intro s1 s2 s3 h1 h2 h3
    obtain ⟨t1, hg1, rfl⟩ := hdob s1 h1
    obtain ⟨t2, h2l, hg2, rfl⟩ := hdoi s2 h2
    obtain ⟨t3, h3l, hg3, rfl⟩ := hdoe s3 h3
    have hidx : (if 3 ≤ (validDatesOf (combinedOf texts)).length then
        (validDatesOf (combinedOf texts)).length - 2 else 1)
        ≤ (validDatesOf (combinedOf texts)).length - 1 := by
      rw [if_pos h3l]
      omega
    exact ⟨t1, t2, t3, rfl, rfl, rfl,
      validDatesOf_rel_of_le (combinedOf texts) (Nat.zero_le _) hg1 hg2,
      validDatesOf_rel_of_le (combinedOf texts) hidx hg2 hg3⟩

set_option maxRecDepth 2000000 in
theorem dates_validated_and_ordered_witness :
    ∃ t1 t2 t3, ("01-01-1990" : String) = fmtDate t1
      ∧ ("15-03-2015" : String) = fmtDate t2
      ∧ ("15-03-2025" : String) = fmtDate t3
      ∧ dateLe t1 t2 ∧ dateLe t2 t3 :=
  (dates_validated_and_ordered
      [("standard", "01-01-1990 15-03-2015 15-03-2025")]).2.2.2.2.2.2.2
    "01-01-1990" "15-03-2015" "15-03-2025" (by decide) (by decide) (by decide)

end IDV

namespace IDV

/-- C2 is refuted as stated: with all three statistic signals at their
cap and no detectable face, the code returns 0.25+0.25+0.30 = 0.8 (the
truncated weights are not renormalized), while the spec's renormalized
combination returns 1. -/
theorem liveness_not_renormalized :
    check_liveness envLiveness 0 = .ok (qOf 8 10)
    ∧ check_liveness_spec envLiveness 0 = .ok 1
    ∧ (qOf 8 10 : ℚ) ≠ 1 :=
  ⟨by decide, by decide, by decide⟩

/-- C2 (amended): `check_liveness` combines the capped sharpness, color
and texture signals with weights 0.25/0.25/0.30 and adds the
detector-confidence signal with weight 0.20 only when the primary engine
reports a face with truthy (nonzero) score; when that signal is missing
the remaining weights are NOT renormalized (the total weight is 0.8).
With nonnegative statistics and detector confidence at most 1 the score
lies in [0, 1]. -/
theorem check_liveness_formula {Img : Type} (env : FaceEnv Img) (i : Img)
    (faces : List Face) (hget : env.appGet i = .ok faces) :
    check_liveness env i = .ok (
      (1 / 4) * min (env.lapVar i / 1000) 1
      + (1 / 4) * min (env.satMean i * env.satStd i / 5000) 1
      + (3 / 10) * min (env.cannyMeanRatio i * 10) 1
      + (match faces.head? with
         | some f => if f.det_score = 0 then 0 else (1 / 5) * f.det_score
         | none => 0))
    ∧ (0 ≤ env.lapVar i → 0 ≤ env.satMean i * env.satStd i →
       0 ≤ env.cannyMeanRatio i →
       (∀ f ∈ faces, 0 ≤ f.det_score ∧ f.det_score ≤ 1) →
       ∀ q, check_liveness env i = .ok q → 0 ≤ q ∧ q ≤ 1) := by
  have hmain : check_liveness env i = .ok (
      (1 / 4) * min (env.lapVar i / 1000) 1
      + (1 / 4) * min (env.satMean i * env.satStd i / 5000) 1
      + (3 / 10) * min (env.cannyMeanRatio i * 10) 1
      + (match faces.head? with
         | some f => if f.det_score = 0 then 0 else (1 / 5) * f.det_score
         | none => 0)) := by
    simp only [check_liveness, hget]
    congr 1
    cases faces with
    | nil =>
      simp only [List.head?, List.append_nil, livenessWeights, List.zip,
        List.zipWith, List.foldl, qadd_eq, qmul_eq, qdiv_eq, qOf_eq]
      push_cast
      ring
    | cons f rest =>
      by_cases hz : f.det_score = 0
      · simp only [List.head?, hz, if_pos rfl, List.append_nil, livenessWeights,
          List.zip, List.zipWith, List.foldl, qadd_eq, qmul_eq, qdiv_eq, qOf_eq]
        push_cast
        ring
      · simp only [List.head?, if_neg hz, livenessWeights, List.cons_append,
          List.nil_append, List.zip, List.zipWith, List.foldl, qadd_eq,
          qmul_eq, qdiv_eq, qOf_eq]
        push_cast
        ring
  refine ⟨hmain, ?_⟩
  intro h1 h2 h3 h4 q hq
  rw [hmain] at hq
  cases hq
  have hb1 : 0 ≤ min (env.lapVar i / 1000) 1 := le_min (by positivity) (by norm_num)
  have hb2 : min (env.lapVar i / 1000) 1 ≤ 1 := min_le_right _ _
  have hc1 : 0 ≤ min (env.satMean i * env.satStd i / 5000) 1 :=
    le_min (by positivity) (by norm_num)
  have hc2 : min (env.satMean i * env.satStd i / 5000) 1 ≤ 1 := min_le_right _ _
  have ht1 : 0 ≤ min (env.cannyMeanRatio i * 10) 1 :=
    le_min (by positivity) (by norm_num)
  have ht2 : min (env.cannyMeanRatio i * 10) 1 ≤ 1 := min_le_right _ _
  have hd : 0 ≤ (match faces.head? with
      | some f => if f.det_score = 0 then (0 : ℚ) else (1 / 5) * f.det_score
      | none => 0)
      ∧ (match faces.head? with
      | some f => if f.det_score = 0 then (0 : ℚ) else (1 / 5) * f.det_score
      | none => 0) ≤ 1 / 5 := by
    cases hf : faces.head? with
    | none => norm_num
    | some f =>
      have hmem : f ∈ faces := by
        cases faces with
        | nil => cases hf
        | cons a t => cases hf; exact List.mem_cons_self _ _
      obtain ⟨hd0, hd1⟩ := h4 f hmem
      dsimp only
      by_cases hz : f.det_score = 0
      · rw [if_pos hz]; norm_num
      · rw [if_neg hz]; constructor <;> nlinarith
  constructor
  · nlinarith [hd.1]
  · nlinarith [hd.2]

set_option maxRecDepth 100000 in
theorem check_liveness_formula_witness :
    check_liveness envLiveness 0 = .ok (
      (1 / 4) * min ((envLiveness.lapVar 0 : ℚ) / 1000) 1
      + (1 / 4) * min (envLiveness.satMean 0 * envLiveness.satStd 0 / 5000) 1
      + (3 / 10) * min (envLiveness.cannyMeanRatio 0 * 10) 1
      + (match ([] : List Face).head? with
         | some f => if f.det_score = 0 then 0 else (1 / 5) * f.det_score
         | none => 0)) :=
  (check_liveness_formula envLiveness 0 [] (by decide)).1

end IDV

namespace IDV

/-- C4: `verify_faces` is total over its environment (it is a function,
the translation of the source's outer `try/except`): a successful
primary comparison is returned as-is; on any primary failure the
fallback comparison is attempted and its success returned; only when
the fallback also fails is the `verified = false`, `confidence = 0`,
`method = "failed"` result returned, carrying the fallback's error
message in the error field. -/
theorem verify_faces_error_handling {Img : Type} (env : FaceEnv Img)
    (cfg : FPConfig) (a b : Img) (md : Option FaceMeta) :
    (∀ r, primaryVerify env cfg a b md = .ok r →
      verify_faces env cfg a b md = r)
    ∧ (∀ e1 r, primaryVerify env cfg a b md = .error e1 →
        fallbackVerify env cfg a b = .ok r →
        verify_faces env cfg a b md = r)
    ∧ (∀ e1 e2, primaryVerify env cfg a b md = .error e1 →
        fallbackVerify env cfg a b = .error e2 →
        verify_faces env cfg a b md =
          { verified := false, confidence := 0, face_locations := [],
            face_embeddings := [], verification_method := "failed",
            error := some e2, liveness_score := none }) := by
  refine ⟨?_, ?_, ?_⟩
  · intro r hp
    unfold verify_faces
    rw [hp]
  · intro e1 r hp hf
    unfold verify_faces
    rw [hp, hf]
  · intro e1 e2 hp hf
    unfold verify_faces
    rw [hp, hf]
    rfl

theorem verify_faces_error_handling_witness :
    verify_faces envBothFail defaultConfig 0 1 none =
      { verified := false, confidence := 0, face_locations := [],
        face_embeddings := [], verification_method := "failed",
        error := some "Could not find face in one or both images",
        liveness_score := none } :=
  (verify_faces_error_handling envBothFail defaultConfig 0 1 none).2.2
    "engine down" "Could not find face in one or both images"
    (by decide) (by decide)

/-- C10 is refuted as stated: on the fallback distance path the code
compares ALL encodings of the first image against only the FIRST
encoding of the second, so with two faces in one image the confidence is
not symmetric (1 versus -1 in the constructed environment, where both
orders take the fallback path). -/
theorem fallback_confidence_asymmetric :
    (verify_faces envTwoEnc defaultConfig 0 1 none).verification_method
        = "face_recognition"
    ∧ (verify_faces envTwoEnc defaultConfig 1 0 none).verification_method
        = "face_recognition"
    ∧ (verify_faces envTwoEnc defaultConfig 0 1 none).confidence = 1
    ∧ (verify_faces envTwoEnc defaultConfig 1 0 none).confidence = -1 :=
  ⟨by decide, by decide, by decide, by decide⟩

/-- Dot products commute. -/
theorem dotQ_comm (a b : List ℚ) : dotQ a b = dotQ b a := by
  suffices h : a.zipWith qmul b = b.zipWith qmul a by rw [dotQ, dotQ, h]
  induction a generalizing b with
  | nil => cases b <;> rfl
  | cons x xs ih =>
    cases b with
    | nil => rfl
    | cons y ys =>
      simp only [List.zipWith]
      rw [ih, qmul_eq, qmul_eq, mul_comm]

/-- The squared distance between two vectors is symmetric. -/
theorem dotQ_vsub_comm (a b : List ℚ) :
    dotQ (vsub a b) (vsub a b) = dotQ (vsub b a) (vsub b a) := by
  unfold dotQ vsub
  induction a generalizing b with
  | nil => cases b <;> rfl
  | cons x xs ih =>
    cases b with
    | nil => rfl
    | cons y ys =>
      simp only [List.zipWith, qsum, List.foldl]
      have hx : qmul (qsub x y) (qsub x y) = qmul (qsub y x) (qsub y x) := by
        rw [qmul_eq, qmul_eq, qsub_eq, qsub_eq]
        ring
      have hs := ih ys
      simp only [qsum] at hs
      have hgen : ∀ (l1 l2 : List ℚ) (c1 c2 : ℚ), c1 = c2 →
          l1.foldl qadd 0 = l2.foldl qadd 0 →
          l1.foldl qadd (qadd 0 c1) = l2.foldl qadd (qadd 0 c2) := by
        intro l1 l2 c1 c2 hc hl
        subst hc
        have hsh : ∀ (l : List ℚ) (x y : ℚ),
            l.foldl qadd (qadd x y) = qadd (l.foldl qadd x) y := by
          intro l
          induction l with
          | nil => intro x y; rfl
          | cons z zs ihz =>
            intro x y
            simp only [List.foldl]
            rw [show qadd (qadd x y) z = qadd (qadd x z) y by
              rw [qadd_eq, qadd_eq, qadd_eq, qadd_eq]; ring]
            exact ihz (qadd x z) y
        rw [hsh, hsh, hl]
      exact hgen _ _ _ _ hx hs

/-- Cosine similarity is symmetric for any square-root function. -/
theorem cosine_similarity_comm (sq : ℚ → ℚ) (e1 e2 : List ℚ) :
    cosine_similarity sq e1 e2 = cosine_similarity sq e2 e1 := by
  unfold cosine_similarity
  rw [dotQ_comm e1 e2, qmul_eq, qmul_eq, mul_comm]

/-- C10 (amended): verification confidence is symmetric on the primary
cosine path (both images detected with embeddings); on the fallback
path it is symmetric provided each image yields exactly one encoding
(with multiple encodings the minimum runs over different sets and
symmetry fails, per the counterexample). -/
theorem verify_faces_confidence_symmetric {Img : Type} (env : FaceEnv Img)
    (cfg : FPConfig) (a b : Img) :
    (∀ fa ra fb rb ea eb,
      env.appGet a = .ok (fa :: ra) → env.appGet b = .ok (fb :: rb) →
      fa.embedding = some ea → fb.embedding = some eb →
      (verify_faces env cfg a b none).confidence
        = (verify_faces env cfg b a none).confidence)
    ∧ (∀ e1 e1' ea eb la lb,
      primaryVerify env cfg a b none = .error e1 →
      primaryVerify env cfg b a none = .error e1' →
      env.frEncodings a = .ok [ea] → env.frEncodings b = .ok [eb] →
      env.frLocations a = .ok la → env.frLocations b = .ok lb →
      (verify_faces env cfg a b none).confidence
        = (verify_faces env cfg b a none).confidence) := by
  constructor
  · intro fa ra fb rb ea eb hga hgb hea heb
    unfold verify_faces primaryVerify extract_embedding
    rw [hga, hgb]
    dsimp only
    rw [hea, heb]
    dsimp only
    rw [hea, heb]
    dsimp only
    rw [cosine_similarity_comm env.sqrtFn ea eb]
  · intro e1 e1' ea eb la lb hp1 hp2 hea heb hla hlb
    unfold verify_faces
    rw [hp1, hp2]
    dsimp only
    unfold fallbackVerify
    rw [hea, heb, hla, hlb]
    dsimp only [faceDistance, List.map, listMin, List.foldl]
    rw [dotQ_vsub_comm ea eb]

end IDV

namespace IDV

theorem verify_faces_confidence_symmetric_witness :
    (verify_faces envPrimaryPair defaultConfig 0 1 none).confidence
      = (verify_faces envPrimaryPair defaultConfig 1 0 none).confidence
    ∧ (verify_faces envOneEnc defaultConfig 0 1 none).confidence
      = (verify_faces envOneEnc defaultConfig 1 0 none).confidence :=
  ⟨(verify_faces_confidence_symmetric envPrimaryPair defaultConfig 0 1).1
      ⟨(0, 0, 1, 1), 1, some [1, 2]⟩ [] ⟨(0, 0, 1, 1), 1, some [2, 1]⟩ []
      [1, 2] [2, 1] rfl rfl rfl rfl,
   (verify_faces_confidence_symmetric envOneEnc defaultConfig 0 1).2
      "down" "down" [2] [0] [] [] rfl rfl rfl rfl rfl rfl⟩

end IDV

namespace IDV

set_option maxRecDepth 2000000 in
/-- C1 is refuted as stated: in the environment `envFull` the response
status is `VERIFIED` while `liveness_passed` is reported `false`
(liveness score 0.18 against the 0.7 minimum) - the decision tests only
face verification and the extraction score, not the liveness result. -/
theorem verified_despite_failed_liveness :
    statusOf (verify_passport envFull defaultConfig 0 0).1 = some "VERIFIED"
    ∧ livenessPassedOf (verify_passport envFull defaultConfig 0 0).1
        = some false :=
  ⟨by decide, by decide⟩

/-- C1 (amended): for every completed full-verification request the
overall status is `VERIFIED` exactly when face verification succeeded
AND the extraction score exceeds 70 - the liveness result does not enter
the decision - and the status is always one of `VERIFIED`, `FAILED`. -/
theorem overall_status_characterization {Img : Type} (env : OrchEnv Img)
    (cfg : FPConfig) (pb sb : Nat) (r : VPSuccess)
    (h : okOf (verify_passport env cfg pb sb).1 = some r) :
    (r.overall_status = "VERIFIED"
      ↔ (r.fv.verified = true ∧ 70 < r.ocr.extraction_score))
    ∧ (r.overall_status = "VERIFIED" ∨ r.overall_status = "FAILED") := by
  unfold verify_passport at h
  dsimp only at h
  rcases hfe : extract_face_from_document env.toFaceEnv cfg
      (env.decodePassport pb) "passport" with _ | fm
  · rw [hfe] at h
    dsimp only [okOf] at h
    exact Option.noConfusion h
  · rw [hfe] at h
    dsimp only at h
    rcases hcl : check_liveness env.toFaceEnv (env.decodeSelfie sb)
        with e | ls
    · rw [hcl] at h
      dsimp only [okOf] at h
      exact Option.noConfusion h
    · rw [hcl] at h
      dsimp only [okOf] at h
      injection h with h
      subst h
      dsimp only
      by_cases hc : ((verify_faces env.toFaceEnv cfg fm.1
            (env.decodeSelfie sb) (some fm.2)).verified = true
          ∧ 70 < (extract (env.ocrObservations pb)).extraction_score)
      · rw [if_pos hc]
        exact ⟨⟨fun _ => hc, fun _ => rfl⟩, Or.inl rfl⟩
      · rw [if_neg hc]
        exact ⟨⟨fun hh => absurd hh (by decide), fun hh => absurd hh hc⟩,
               Or.inr rfl⟩

/-- The success record of the `envFull` request. -/
def rFull : VPSuccess :=
  (okOf (verify_passport envFull defaultConfig 0 0).1).getD
    ⟨⟨{}, 0, ""⟩, failedResult "", 0, false, ""⟩

set_option maxRecDepth 2000000 in
theorem overall_status_characterization_witness :
    okOf (verify_passport envFull defaultConfig 0 0).1 = some rFull
    ∧ (rFull.overall_status = "VERIFIED"
        ↔ (rFull.fv.verified = true ∧ 70 < rFull.ocr.extraction_score)) :=
  ⟨by decide,
   (overall_status_characterization envFull defaultConfig 0 0 rFull
      (by decide)).1⟩

/-- C8: when neither the primary engine nor the cascade detector finds a
face in the passport crop, `extract_face_from_document` returns `none`,
the response is the no-face failure still carrying the OCR result, the
face-verification step is never reached, and the status is never
`VERIFIED`. -/
theorem no_face_short_circuit {Img : Type} (env : OrchEnv Img)
    (cfg : FPConfig) (pb sb : Nat)
    (h1 : env.appGet (docROI env.toFaceEnv (env.decodePassport pb)
            "passport") = .ok [])
    (h2 : env.cascadeDetect (env.toGray (docROI env.toFaceEnv
            (env.decodePassport pb) "passport")) = []) :
    extract_face_from_document env.toFaceEnv cfg (env.decodePassport pb)
        "passport" = none
    ∧ (verify_passport env cfg pb sb).1
        = .noFace (extract (env.ocrObservations pb))
    ∧ VPEvent.faceVerification ∉ (verify_passport env cfg pb sb).2
    ∧ statusOf (verify_passport env cfg pb sb).1 ≠ some "VERIFIED" := by
  have hfe : extract_face_from_document env.toFaceEnv cfg
      (env.decodePassport pb) "passport" = none := by
    unfold extract_face_from_document
    dsimp only
    rw [h1]
    dsimp only [pyMaxByQ]
    rw [h2]
    dsimp only [pyMaxByI]
  have hvp : verify_passport env cfg pb sb
      = (.noFace (extract (env.ocrObservations pb)),
         [.ocrDone, .faceExtraction]) := by
    unfold verify_passport
    dsimp only
    rw [hfe]
  refine ⟨hfe, by rw [hvp], ?_, ?_⟩
  · rw [hvp]
    dsimp only
    decide
  · rw [hvp]
    intro hc
    exact Option.noConfusion hc

theorem no_face_short_circuit_witness :
    extract_face_from_document envNoFace.toFaceEnv defaultConfig
        (envNoFace.decodePassport 5) "passport" = none
    ∧ (verify_passport envNoFace defaultConfig 5 7).1
        = .noFace (extract (envNoFace.ocrObservations 5))
    ∧ VPEvent.faceVerification ∉ (verify_passport envNoFace defaultConfig 5 7).2
    ∧ statusOf (verify_passport envNoFace defaultConfig 5 7).1
        ≠ some "VERIFIED" :=
  no_face_short_circuit envNoFace defaultConfig 5 7 rfl rfl

end IDV
